import Mathlib

/-!
# Instance lifecycle state machine of `dds/DCPS/InstanceState.cpp`

A shallow embedding of `OpenDDS::DCPS::InstanceState`: the member functions
are functions on a `World`, which holds the fields of the object together with
the collaborators the object talks to (the reactor that owns the timers, the
command queue inherited from `ReactorInterceptor`, and the calls received by
the ownership manager and by the data reader).

Conventions of the embedding:

* `unsigned long` / `size_t` fields are `Nat`, `long` fields are `Int`; none of
  the embedded functions performs arithmetic on them, so no wrap-around occurs.
* `ACE_GUARD` / `ACE_GUARD_RETURN` take the recursive lock of the reader; every
  function is embedded as one atomic step and the failure to take a lock is
  not modelled.
* Log output (`ACE_DEBUG`, `ACE_ERROR`) is not part of the state.
-/

namespace OpenDDS.DCPS

/-! ## Types and constants declared outside `InstanceState.cpp` -/

/-- Writer identity (`PublicationId`, a GUID); only equality is ever used. -/
abbrev PublicationId := Nat

/-- Modelled from the spec: the constant `GUID_UNKNOWN` is declared outside
`InstanceState.cpp`; it is the "unknown writer identity" an ownership reset
stores in `owner_`. -/
def GUID_UNKNOWN : PublicationId := 0

/-- The type `DDS::InstanceHandle_t`. -/
abbrev InstanceHandle_t := Int

/-- The type `DDS::InstanceStateKind`, a bit mask. -/
abbrev InstanceStateKind := Nat

/-- Modelled from the spec: the constant `DDS::ALIVE_INSTANCE_STATE` comes from
the DDS IDL, which is not part of `InstanceState.cpp`; it is the first of the
three single-bit instance states. -/
def ALIVE_INSTANCE_STATE : InstanceStateKind := 1

/-- Modelled from the spec: the constant
`DDS::NOT_ALIVE_DISPOSED_INSTANCE_STATE` of the DDS IDL, the second single-bit
instance state. -/
def NOT_ALIVE_DISPOSED_INSTANCE_STATE : InstanceStateKind := 2

/-- Modelled from the spec: the constant
`DDS::NOT_ALIVE_NO_WRITERS_INSTANCE_STATE` of the DDS IDL, the third single-bit
instance state. -/
def NOT_ALIVE_NO_WRITERS_INSTANCE_STATE : InstanceStateKind := 4

/-- The type `DDS::Duration_t`: `long sec; unsigned long nanosec`. -/
structure Duration_t where
  sec : Int
  nanosec : Nat
  deriving DecidableEq, Repr

/-- Modelled from the spec: the constant `DDS::DURATION_INFINITE_SEC` of the
DDS IDL, the seconds field of the "infinite" sentinel. -/
def DURATION_INFINITE_SEC : Int := 0x7fffffff

/-- Modelled from the spec: the constant `DDS::DURATION_INFINITE_NSEC` of the
DDS IDL, the nanoseconds field of the "infinite" sentinel. -/
def DURATION_INFINITE_NSEC : Nat := 0x7fffffff

/-- The "infinite" sentinel duration: both fields are the infinite constants. -/
def DURATION_INFINITE : Duration_t := ⟨DURATION_INFINITE_SEC, DURATION_INFINITE_NSEC⟩

/-- The delay handed to the reactor (`ACE_Time_Value`). -/
structure ACE_Time_Value where
  delay : Duration_t
  deriving DecidableEq, Repr

/-- Modelled from the spec: `duration_to_time_value` lives in `Time_Helper.h`,
which is not part of `InstanceState.cpp`. The spec only says that the timer is
requested for the configured delay, so the time value records that delay. -/
def duration_to_time_value (d : Duration_t) : ACE_Time_Value := ⟨d⟩

/-! ## Collaborators -/

/-- The ownership manager as seen from one call: its answer to `is_owner`. -/
structure OwnershipManager where
  is_owner : InstanceHandle_t → PublicationId → Bool

/-- The part of `DataReaderImpl` that `InstanceState` reads during one call:
the two autopurge delays of `qos.reader_data_lifecycle`, the ownership manager
pointer (`none` is the null pointer) and the participant servant (`none` when
the weak reference can no longer be locked), given by its `id_to_handle`. -/
structure DataReaderImpl where
  autopurge_nowriter_samples_delay : Duration_t
  autopurge_disposed_samples_delay : Duration_t
  ownership_manager : Option OwnershipManager
  participant_servant_ : Option (PublicationId → InstanceHandle_t)

/-- A call received by the reactor. -/
inductive ReactorCall where
  | cancel_timer
  | schedule_timer (delay : ACE_Time_Value)
  deriving DecidableEq, Repr

/-- A call received by the ownership manager. -/
inductive OwnershipCall where
  | is_owner (h : InstanceHandle_t) (writer_id : PublicationId)
  | remove_writer (h : InstanceHandle_t) (writer_id : PublicationId)
  deriving DecidableEq, Repr

/-- A call received by the data reader. -/
inductive ReaderCall where
  | release_instance (h : InstanceHandle_t)
  | reset_ownership (h : InstanceHandle_t)
  deriving DecidableEq, Repr

/-- The timer facility as far as this instance is concerned: the timers that
are pending for the instance (timer id and delay), the results the facility is
going to hand out to the coming `schedule_timer` calls (`-1` is a failure, as
is an exhausted list) and the calls received so far. -/
structure Reactor where
  timers : List (Int × ACE_Time_Value)
  answers : List Int
  calls : List ReactorCall
  deriving DecidableEq, Repr

/-- The reactor operation `cancel_timer(handler)`: drops every timer pending
for the handler. -/
def Reactor.cancel_timer (r : Reactor) : Reactor :=
  { r with timers := [], calls := r.calls ++ [ReactorCall.cancel_timer] }

/-- The reactor operation `schedule_timer(handler, 0, delay)`: a one-shot timer;
the result is the timer id, or `-1` when no timer could be created. -/
def Reactor.schedule_timer (r : Reactor) (delay : ACE_Time_Value) : Int × Reactor :=
  match r.answers with
  | [] => (-1, { r with calls := r.calls ++ [ReactorCall.schedule_timer delay] })
  | a :: rest =>
    if a = -1 then
      (-1, { r with answers := rest, calls := r.calls ++ [ReactorCall.schedule_timer delay] })
    else
      (a, { timers := r.timers ++ [(a, delay)], answers := rest,
            calls := r.calls ++ [ReactorCall.schedule_timer delay] })

/-! ## The object -/

/-- The data members of `InstanceState` (the lock and the reader pointer are
collaborators, see `World` and `DataReaderImpl`). -/
structure InstanceState where
  instance_state_ : InstanceStateKind
  view_state_ : Nat
  disposed_generation_count_ : Nat
  no_writers_generation_count_ : Nat
  empty_ : Bool
  release_pending_ : Bool
  release_timer_id_ : Int
  handle_ : InstanceHandle_t
  owner_ : PublicationId
  exclusive_ : Bool
  registered_ : Bool
  writers_ : Finset PublicationId
  deriving DecidableEq

/-- The constructor `InstanceState::InstanceState(reader, lock, handle)`;
`exclusive` is `reader->qos_.ownership.kind == DDS::EXCLUSIVE_OWNERSHIP_QOS`. -/
def InstanceState.new (exclusive : Bool) (handle : InstanceHandle_t) : InstanceState :=
  { instance_state_ := 0
    view_state_ := 0
    disposed_generation_count_ := 0
    no_writers_generation_count_ := 0
    empty_ := true
    release_pending_ := false
    release_timer_id_ := -1
    handle_ := handle
    owner_ := GUID_UNKNOWN
    exclusive_ := exclusive
    registered_ := false
    writers_ := ∅ }

/-- The two commands handed to `execute_or_enqueue`. -/
inductive Command where
  | CancelCommand
  | ScheduleCommand (delay_ : ACE_Time_Value)
  deriving DecidableEq, Repr

/-- The object together with its collaborators. -/
structure World where
  inst : InstanceState
  reactor : Reactor
  command_queue_ : List Command
  ownership_calls : List OwnershipCall
  reader_calls : List ReaderCall
  deriving DecidableEq

/-- The method `InstanceState::CancelCommand::execute`. -/
def CancelCommand.execute (w : World) : World :=
  if w.inst.release_timer_id_ ≠ -1 then
    { w with
      reactor := w.reactor.cancel_timer
      inst := { w.inst with release_timer_id_ := -1 } }
  else w

/-- The method `InstanceState::ScheduleCommand::execute`; the branch on a
failed `schedule_timer` only logs. -/
def ScheduleCommand.execute (delay_ : ACE_Time_Value) (w : World) : World :=
  let res := w.reactor.schedule_timer delay_
  { w with
    reactor := res.2
    inst := { w.inst with release_timer_id_ := res.1 } }

/-- Running a command. -/
def Command.execute : Command → World → World
  | Command.CancelCommand, w => CancelCommand.execute w
  | Command.ScheduleCommand d, w => ScheduleCommand.execute d w

/-- Modelled from the spec: `ReactorInterceptor::execute_or_enqueue` is
declared outside `InstanceState.cpp`. When the calling thread is the timer
facility's thread (`immediate`) the command executes synchronously; otherwise
it is packaged as a unit of work and handed to that context to execute later. -/
def execute_or_enqueue (immediate : Bool) (cmd : Command) (w : World) : World :=
  if immediate then cmd.execute w
  else { w with command_queue_ := w.command_queue_ ++ [cmd] }

/-- Modelled from the spec: the timer facility's context executing the units of
work handed to it, in the order they were handed over
(`ReactorInterceptor`, outside `InstanceState.cpp`). -/
def process_command_queue (w : World) : World :=
  w.command_queue_.foldl (fun v cmd => cmd.execute v) { w with command_queue_ := [] }

/-- The method `InstanceState::schedule_pending`. -/
def schedule_pending (w : World) : World :=
  { w with inst := { w.inst with release_pending_ := true } }

/-- The method `InstanceState::cancel_release`. -/
def cancel_release (immediate : Bool) (w : World) : World :=
  execute_or_enqueue immediate Command.CancelCommand
    { w with inst := { w.inst with release_pending_ := false } }

/-- The `switch` at the head of `InstanceState::schedule_release`: the delay
configured for the stored state, `none` for the `default:` branch. -/
def release_delay (reader : DataReaderImpl) (instance_state_ : InstanceStateKind) :
    Option Duration_t :=
  if instance_state_ = NOT_ALIVE_NO_WRITERS_INSTANCE_STATE then
    some reader.autopurge_nowriter_samples_delay
  else if instance_state_ = NOT_ALIVE_DISPOSED_INSTANCE_STATE then
    some reader.autopurge_disposed_samples_delay
  else none

/-- The method `InstanceState::schedule_release`. -/
def schedule_release (reader : DataReaderImpl) (immediate : Bool) (w : World) : World :=
  match release_delay reader w.inst.instance_state_ with
  | none => w
  | some delay =>
    if delay.sec ≠ DURATION_INFINITE_SEC ∧ delay.nanosec ≠ DURATION_INFINITE_NSEC then
      execute_or_enqueue immediate (Command.ScheduleCommand (duration_to_time_value delay))
        (cancel_release immediate w)
    else schedule_pending w

/-- The method `InstanceState::release`. -/
def release (w : World) : World :=
  { w with reader_calls := w.reader_calls ++ [ReaderCall.release_instance w.inst.handle_] }

/-- The method `InstanceState::release_if_empty`. -/
def release_if_empty (w : World) : Bool × World :=
  if w.inst.empty_ = true ∧ w.inst.writers_ = ∅ then (true, release w)
  else (false, schedule_pending w)

/-- The method `InstanceState::handle_timeout`. -/
def handle_timeout (w : World) : Int × World := (0, release w)

/-- The method `InstanceState::dispose_was_received`. -/
def dispose_was_received (reader : DataReaderImpl) (immediate : Bool)
    (writer_id : PublicationId) (w : World) : Bool × World :=
  let w1 : World := { w with inst := { w.inst with writers_ := w.inst.writers_.erase writer_id } }
  if w1.inst.instance_state_ &&& ALIVE_INSTANCE_STATE ≠ 0 then
    if w1.inst.exclusive_ = false then
      (true, schedule_release reader immediate
        { w1 with inst := { w1.inst with instance_state_ := NOT_ALIVE_DISPOSED_INSTANCE_STATE } })
    else
      match reader.ownership_manager with
      | none => (false, w1)
      | some owner_manager =>
        let w2 : World :=
          { w1 with ownership_calls :=
              w1.ownership_calls ++ [OwnershipCall.is_owner w1.inst.handle_ writer_id] }
        if owner_manager.is_owner w1.inst.handle_ writer_id = true then
          (true, schedule_release reader immediate
            { w2 with inst := { w2.inst with instance_state_ := NOT_ALIVE_DISPOSED_INSTANCE_STATE } })
        else (false, w2)
  else (false, w1)

/-- The method `InstanceState::unregister_was_received`. -/
def unregister_was_received (reader : DataReaderImpl) (immediate : Bool)
    (writer_id : PublicationId) (w : World) : Bool × World :=
  let w1 : World := { w with inst := { w.inst with writers_ := w.inst.writers_.erase writer_id } }
  let w2 : World :=
    if w1.inst.exclusive_ = true then
      match reader.ownership_manager with
      | none => w1
      | some _ =>
        { w1 with ownership_calls :=
            w1.ownership_calls ++ [OwnershipCall.remove_writer w1.inst.handle_ writer_id] }
    else w1
  if w2.inst.writers_ = ∅ ∧ w2.inst.instance_state_ &&& ALIVE_INSTANCE_STATE ≠ 0 then
    (true, schedule_release reader immediate
      { w2 with inst := { w2.inst with instance_state_ := NOT_ALIVE_NO_WRITERS_INSTANCE_STATE } })
  else (false, w2)

/-- The method `InstanceState::writer_became_dead`. -/
def writer_became_dead (reader : DataReaderImpl) (immediate : Bool)
    (writer_id : PublicationId) (w : World) : World :=
  let w1 : World := { w with inst := { w.inst with writers_ := w.inst.writers_.erase writer_id } }
  if w1.inst.writers_ = ∅ ∧ w1.inst.instance_state_ &&& ALIVE_INSTANCE_STATE ≠ 0 then
    schedule_release reader immediate
      { w1 with inst := { w1.inst with instance_state_ := NOT_ALIVE_NO_WRITERS_INSTANCE_STATE } }
  else w1

/-- The method `InstanceState::set_owner`. -/
def set_owner (owner : PublicationId) (w : World) : World :=
  { w with inst := { w.inst with owner_ := owner } }

/-- The method `InstanceState::registered()`. -/
def registered (w : World) : Bool × World :=
  (w.inst.registered_, { w with inst := { w.inst with registered_ := true } })

/-- The method `InstanceState::registered(bool flag)`. -/
def registered_flag (flag : Bool) (w : World) : World :=
  { w with inst := { w.inst with registered_ := flag } }

/-- The method `InstanceState::reset_ownership`. -/
def reset_ownership (h : InstanceHandle_t) (w : World) : World :=
  { w with
    inst := { w.inst with owner_ := GUID_UNKNOWN, registered_ := false }
    reader_calls := w.reader_calls ++ [ReaderCall.reset_ownership h] }

/-! ## Sequences of operations -/

/-- Modelled from the spec: the timer facility firing a pending one-shot timer
of the instance: the timer leaves the facility and the timeout callback
`handle_timeout` runs. Nothing happens when no timer is pending. -/
def timer_expires (w : World) : World :=
  match w.reactor.timers with
  | [] => w
  | _ :: rest => (handle_timeout { w with reactor := { w.reactor with timers := rest } }).2

/-- The operations that can be applied to an instance. -/
inductive Op where
  | dispose_was_received (writer_id : PublicationId)
  | unregister_was_received (writer_id : PublicationId)
  | writer_became_dead (writer_id : PublicationId)
  | schedule_pending
  | schedule_release
  | cancel_release
  | release_if_empty
  | release
  | handle_timeout
  | set_owner (owner : PublicationId)
  | registered
  | registered_flag (flag : Bool)
  | reset_ownership (h : InstanceHandle_t)
  | process_command_queue
  | timer_expires
  deriving DecidableEq, Repr

/-- One operation, applied with the reader as it is during the call and with
`immediate` telling whether the caller is the reactor's thread; return values
are dropped. -/
def step (reader : DataReaderImpl) (immediate : Bool) : Op → World → World
  | Op.dispose_was_received writer_id, w => (dispose_was_received reader immediate writer_id w).2
  | Op.unregister_was_received writer_id, w =>
    (unregister_was_received reader immediate writer_id w).2
  | Op.writer_became_dead writer_id, w => writer_became_dead reader immediate writer_id w
  | Op.schedule_pending, w => schedule_pending w
  | Op.schedule_release, w => schedule_release reader immediate w
  | Op.cancel_release, w => cancel_release immediate w
  | Op.release_if_empty, w => (release_if_empty w).2
  | Op.release, w => release w
  | Op.handle_timeout, w => (handle_timeout w).2
  | Op.set_owner owner, w => set_owner owner w
  | Op.registered, w => (registered w).2
  | Op.registered_flag flag, w => registered_flag flag w
  | Op.reset_ownership h, w => reset_ownership h w
  | Op.process_command_queue, w => process_command_queue w
  | Op.timer_expires, w => timer_expires w

/-- A sequence of operations, each with its own reader snapshot and thread. -/
def run (ops : List (DataReaderImpl × Bool × Op)) (w : World) : World :=
  ops.foldl (fun v o => step o.1 o.2.1 o.2.2 v) w

/-- The stored state has the ALIVE bit set (`instance_state_ & ALIVE_INSTANCE_STATE`). -/
def is_alive (s : InstanceStateKind) : Prop := s &&& ALIVE_INSTANCE_STATE ≠ 0

instance (s : InstanceStateKind) : Decidable (is_alive s) := by
  unfold is_alive; infer_instance

/-! ## Example worlds -/

/-- A reader with finite autopurge delays, no ownership manager, no participant. -/
def example_reader : DataReaderImpl :=
  { autopurge_nowriter_samples_delay := ⟨5, 0⟩
    autopurge_disposed_samples_delay := ⟨7, 0⟩
    ownership_manager := none
    participant_servant_ := none }

/-- A reader whose ownership manager answers that writer `1` owns every instance. -/
def example_exclusive_reader : DataReaderImpl :=
  { example_reader with ownership_manager := some ⟨fun _ writer_id => writer_id == 1⟩ }

/-- An ALIVE instance with handle `9` and writers `1` and `2`, no timer pending; the
reactor will hand out the timer ids `42` and `43`. -/
def example_world (exclusive : Bool) : World :=
  { inst := { InstanceState.new exclusive 9 with
              instance_state_ := ALIVE_INSTANCE_STATE, writers_ := {1, 2} }
    reactor := ⟨[], [42, 43], []⟩
    command_queue_ := []
    ownership_calls := []
    reader_calls := [] }

/-- An ALIVE instance with handle `9` whose only writer is `1`, counters at zero. -/
def example_single_writer_world (exclusive : Bool) : World :=
  { example_world exclusive with
    inst := { (example_world exclusive).inst with writers_ := {1} } }

/-! ## Timer invariant -/

/-- Every queued `ScheduleCommand` directly follows a queued `CancelCommand`, which is
how `schedule_release` hands its two commands over. -/
def queue_well_formed : List Command → Bool
  | [] => true
  | Command.ScheduleCommand _ :: _ => false
  | Command.CancelCommand :: Command.ScheduleCommand _ :: rest => queue_well_formed rest
  | Command.CancelCommand :: rest => queue_well_formed rest

/-- The facility holds at most one pending timer for the instance, and none while
the stored timer id is `-1`. -/
def timer_invariant (w : World) : Prop :=
  (w.inst.release_timer_id_ = -1 → w.reactor.timers = []) ∧ w.reactor.timers.length ≤ 1

/-- The invariant of the timer bookkeeping, queued commands included. -/
def release_invariant (w : World) : Prop :=
  timer_invariant w ∧ queue_well_formed w.command_queue_ = true

/-- An instance in state NOT_ALIVE_NO_WRITERS with no writer and no timer; the
reactor will hand out the timer ids `42` and `43`. -/
def example_no_writers_world : World :=
  { inst := { InstanceState.new false 9 with
              instance_state_ := NOT_ALIVE_NO_WRITERS_INSTANCE_STATE }
    reactor := ⟨[], [42, 43], []⟩
    command_queue_ := []
    ownership_calls := []
    reader_calls := [] }

/-- A reader whose no-writers delay has the infinite seconds constant and zero
nanoseconds: a finite duration, different from the infinite sentinel. -/
def example_long_delay_reader : DataReaderImpl :=
  { example_reader with autopurge_nowriter_samples_delay := ⟨DURATION_INFINITE_SEC, 0⟩ }

/-- A reader whose two delays are the infinite sentinel. -/
def example_infinite_reader : DataReaderImpl :=
  { example_reader with
    autopurge_nowriter_samples_delay := DURATION_INFINITE
    autopurge_disposed_samples_delay := DURATION_INFINITE }

/-! ## Sample info -/

/-- The type `DDS::Time_t` of a source timestamp. -/
structure Time_t where
  sec : Int
  nanosec : Nat
  deriving DecidableEq, Repr

/-- The fields of `ReceivedDataElement` that `InstanceState` reads; the two saved
generation counters are `size_t` values and `sequence_` stands for
`sequence_.getValue()`. -/
structure ReceivedDataElement where
  sample_state_ : Nat
  source_timestamp_ : Time_t
  pub_ : PublicationId
  valid_data_ : Bool
  disposed_generation_count_ : Nat
  no_writers_generation_count_ : Nat
  sequence_ : Int
  deriving DecidableEq, Repr

/-- The record `DDS::SampleInfo`; the counters and the ranks are `CORBA::Long`. -/
structure SampleInfo where
  sample_state : Nat
  view_state : Nat
  instance_state : InstanceStateKind
  disposed_generation_count : Int
  no_writers_generation_count : Int
  source_timestamp : Time_t
  instance_handle : InstanceHandle_t
  publication_handle : InstanceHandle_t
  valid_data : Bool
  sample_rank : Int
  generation_rank : Int
  absolute_generation_rank : Int
  opendds_reserved_publication_seq : Int
  deriving DecidableEq, Repr

/-- The conversion `static_cast<CORBA::Long>` of an unsigned value: the low 32 bits,
read as a two's complement number. -/
def to_Long (n : Nat) : Int :=
  if n % 2 ^ 32 < 2 ^ 31 then ((n % 2 ^ 32 : Nat) : Int) else ((n % 2 ^ 32 : Nat) : Int) - 2 ^ 32

/-- Addition of two `size_t` values (64 bits). -/
def size_t_add (a b : Nat) : Nat := (a + b) % 2 ^ 64

/-- The method `InstanceState::sample_info`: `si` is the record passed by reference,
`de` the stored sample. The method is not `const`, so the world after the call is
returned next to the record. -/
def sample_info (reader : DataReaderImpl) (si : SampleInfo) (de : ReceivedDataElement)
    (w : World) : SampleInfo × World :=
  ({ si with
      sample_state := de.sample_state_
      view_state := w.inst.view_state_
      instance_state := w.inst.instance_state_
      disposed_generation_count := to_Long w.inst.disposed_generation_count_
      no_writers_generation_count := to_Long w.inst.no_writers_generation_count_
      source_timestamp := de.source_timestamp_
      instance_handle := w.inst.handle_
      publication_handle :=
        (match reader.participant_servant_ with
          | some id_to_handle => id_to_handle de.pub_
          | none => 0)
      valid_data := de.valid_data_
      sample_rank := 0
      generation_rank :=
        to_Long (size_t_add de.disposed_generation_count_ de.no_writers_generation_count_)
      absolute_generation_rank :=
        to_Long (size_t_add de.disposed_generation_count_ de.no_writers_generation_count_)
      opendds_reserved_publication_seq := de.sequence_ }, w)

/-- The method `InstanceState::most_recent_generation`. -/
def most_recent_generation (item : ReceivedDataElement) (w : World) : Bool :=
  decide (item.disposed_generation_count_ = w.inst.disposed_generation_count_) &&
    decide (item.no_writers_generation_count_ = w.inst.no_writers_generation_count_)

/-- A record with every field zero, to be filled by `sample_info`. -/
def example_sample_info : SampleInfo :=
  { sample_state := 0, view_state := 0, instance_state := 0, disposed_generation_count := 0,
    no_writers_generation_count := 0, source_timestamp := ⟨0, 0⟩, instance_handle := 0,
    publication_handle := 0, valid_data := false, sample_rank := 7, generation_rank := 7,
    absolute_generation_rank := 7, opendds_reserved_publication_seq := 0 }

/-- A stored sample of writer `1` with saved counters `2` and `1`. -/
def example_sample : ReceivedDataElement :=
  { sample_state_ := 2, source_timestamp_ := ⟨100, 5⟩, pub_ := 1, valid_data_ := true,
    disposed_generation_count_ := 2, no_writers_generation_count_ := 1, sequence_ := 17 }

/-- An instance whose current counters are `1` and `2`: the same sum as the saved
counters of `example_sample`, but not the same pair. -/
def example_counted_world : World :=
  { example_world false with
    inst := { (example_world false).inst with
              disposed_generation_count_ := 1, no_writers_generation_count_ := 2 } }

/-- A reader whose participant translates writer `n` to the handle `n + 100`. -/
def example_participant_reader : DataReaderImpl :=
  { example_reader with participant_servant_ := some (fun pub => (pub : Int) + 100) }

/-! ## Instance state names -/

/-- Modelled from the spec: the constant `DDS::NOT_ALIVE_INSTANCE_STATE` of the DDS
IDL, the composite mask NOT_ALIVE (= DISPOSED | NO_WRITERS). -/
def NOT_ALIVE_INSTANCE_STATE : InstanceStateKind :=
  NOT_ALIVE_DISPOSED_INSTANCE_STATE ||| NOT_ALIVE_NO_WRITERS_INSTANCE_STATE

/-- Modelled from the spec: `to_dds_string` is declared outside `InstanceState.cpp` and
the spec does not describe it; it is taken to be the decimal rendering. It only
occurs in the `default:` branch of `instance_state_string`. -/
def to_dds_string (value : Nat) : String := toString value

/-- The method `InstanceState::instance_state_string`. The constant
`DDS::ANY_INSTANCE_STATE` is declared in the DDS IDL, outside `InstanceState.cpp`, and
is a parameter here; as a `case` label of the `switch` it differs from the other
four labels. -/
def instance_state_string (ANY_INSTANCE_STATE : InstanceStateKind) (value : InstanceStateKind) :
    String :=
  if value = ALIVE_INSTANCE_STATE then "ALIVE_INSTANCE_STATE"
  else if value = NOT_ALIVE_INSTANCE_STATE then "NOT_ALIVE_INSTANCE_STATE"
  else if value = NOT_ALIVE_DISPOSED_INSTANCE_STATE then "NOT_ALIVE_DISPOSED_INSTANCE_STATE"
  else if value = NOT_ALIVE_NO_WRITERS_INSTANCE_STATE then "NOT_ALIVE_NO_WRITERS_INSTANCE_STATE"
  else if value = ANY_INSTANCE_STATE then "ANY_INSTANCE_STATE"
  else "(Unknown Instance State: " ++ to_dds_string value ++ ")"

/-- The method `InstanceState::instance_state_mask_string`; the three `if` statements
that build `str` are the three `let` steps. -/
def instance_state_mask_string (ANY_INSTANCE_STATE : InstanceStateKind)
    (mask : InstanceStateKind) : String :=
  if mask = ANY_INSTANCE_STATE then instance_state_string ANY_INSTANCE_STATE ANY_INSTANCE_STATE
  else if mask = NOT_ALIVE_INSTANCE_STATE then
    instance_state_string ANY_INSTANCE_STATE NOT_ALIVE_INSTANCE_STATE
  else
    let str0 : String := ""
    let str1 : String :=
      if mask &&& ALIVE_INSTANCE_STATE ≠ 0 then
        instance_state_string ANY_INSTANCE_STATE ALIVE_INSTANCE_STATE
      else str0
    let str2 : String :=
      if mask &&& NOT_ALIVE_DISPOSED_INSTANCE_STATE ≠ 0 then
        (if ¬ str1.isEmpty then str1 ++ " | " else str1) ++
          instance_state_string ANY_INSTANCE_STATE NOT_ALIVE_DISPOSED_INSTANCE_STATE
      else str1
    let str3 : String :=
      if mask &&& NOT_ALIVE_NO_WRITERS_INSTANCE_STATE ≠ 0 then
        (if ¬ str2.isEmpty then str2 ++ " | " else str2) ++
          instance_state_string ANY_INSTANCE_STATE NOT_ALIVE_NO_WRITERS_INSTANCE_STATE
      else str2
    str3

/-- The names of the single bits set in a mask, in the order ALIVE,
NOT_ALIVE_DISPOSED, NOT_ALIVE_NO_WRITERS, as the claim words it. -/
def mask_bit_names (mask : InstanceStateKind) : List String :=
  (if mask &&& ALIVE_INSTANCE_STATE ≠ 0 then ["ALIVE_INSTANCE_STATE"] else []) ++
  (if mask &&& NOT_ALIVE_DISPOSED_INSTANCE_STATE ≠ 0 then
    ["NOT_ALIVE_DISPOSED_INSTANCE_STATE"] else []) ++
  (if mask &&& NOT_ALIVE_NO_WRITERS_INSTANCE_STATE ≠ 0 then
    ["NOT_ALIVE_NO_WRITERS_INSTANCE_STATE"] else [])

/-! ## Registration -/

/-- The operations that store `false` in `registered_`: `reset_ownership` and the setter
`registered(false)`. -/
def clears_registered : Op → Bool
  | Op.reset_ownership _ => true
  | Op.registered_flag false => true
  | _ => false

/-- An instance in state NOT_ALIVE_NO_WRITERS with `release_pending_` set, a stored timer
id `7` and that timer pending, in front of a facility that will fail. -/
def example_failing_world : World :=
  { inst := { InstanceState.new false 9 with
              instance_state_ := NOT_ALIVE_NO_WRITERS_INSTANCE_STATE
              release_pending_ := true
              release_timer_id_ := 7 }
    reactor := ⟨[(7, ⟨⟨5, 0⟩⟩)], [-1], []⟩
    command_queue_ := []
    ownership_calls := []
    reader_calls := [] }

/-- An instance in state NOT_ALIVE_DISPOSED with no writer and no timer; the reactor
will hand out the timer ids `42` and `43`. -/
def example_disposed_world : World :=
  { inst := { InstanceState.new false 9 with
              instance_state_ := NOT_ALIVE_DISPOSED_INSTANCE_STATE }
    reactor := ⟨[], [42, 43], []⟩
    command_queue_ := []
    ownership_calls := []
    reader_calls := [] }

/-! ## Closed forms used in the proofs -/

/-- The calls `unregister_was_received` makes on the ownership manager: one
`remove_writer` when ownership is exclusive and the manager is present. -/
def remove_writer_calls (reader : DataReaderImpl) (writer_id : PublicationId) (w : World) :
    List OwnershipCall :=
  if w.inst.exclusive_ = true ∧ reader.ownership_manager.isSome = true then
    [OwnershipCall.remove_writer w.inst.handle_ writer_id]
  else []

/-- The calls `dispose_was_received` makes on the ownership manager: one `is_owner`
when the state is alive, ownership is exclusive and the manager is present. -/
def is_owner_calls (reader : DataReaderImpl) (writer_id : PublicationId) (w : World) :
    List OwnershipCall :=
  if is_alive w.inst.instance_state_ ∧ w.inst.exclusive_ = true ∧
      reader.ownership_manager.isSome = true then
    [OwnershipCall.is_owner w.inst.handle_ writer_id]
  else []

/-- The test `! exclusive_ || (owner_manager && owner_manager->is_owner(handle_, writer_id))`
of `dispose_was_received`. -/
def dispose_authorized (reader : DataReaderImpl) (writer_id : PublicationId) (w : World) : Bool :=
  !w.inst.exclusive_ ||
    (match reader.ownership_manager with
      | none => false
      | some owner_manager => owner_manager.is_owner w.inst.handle_ writer_id)

/-! ## Frame lemmas -/

/-- Running a command touches only the stored timer id and the reactor. -/
theorem command_execute_frame (cmd : Command) (w : World) :
    (cmd.execute w).inst = { w.inst with release_timer_id_ := (cmd.execute w).inst.release_timer_id_ } ∧
    (cmd.execute w).command_queue_ = w.command_queue_ ∧
    (cmd.execute w).ownership_calls = w.ownership_calls ∧
    (cmd.execute w).reader_calls = w.reader_calls := by
  cases cmd with
  | CancelCommand =>
    simp only [Command.execute, CancelCommand.execute]
    split_ifs <;> simp
  | ScheduleCommand d => simp [Command.execute, ScheduleCommand.execute]

/-- Handing a command over touches only the stored timer id, the reactor and
the command queue. -/
theorem execute_or_enqueue_frame (immediate : Bool) (cmd : Command) (w : World) :
    (execute_or_enqueue immediate cmd w).inst =
      { w.inst with
        release_timer_id_ := (execute_or_enqueue immediate cmd w).inst.release_timer_id_ } ∧
    (execute_or_enqueue immediate cmd w).ownership_calls = w.ownership_calls ∧
    (execute_or_enqueue immediate cmd w).reader_calls = w.reader_calls := by
  unfold execute_or_enqueue
  split_ifs
  · exact ⟨(command_execute_frame cmd w).1, (command_execute_frame cmd w).2.2⟩
  · simp

/-- The method `schedule_release` touches only `release_pending_`, the stored timer id,
the reactor and the command queue. -/
theorem schedule_release_frame (reader : DataReaderImpl) (immediate : Bool) (w : World) :
    (schedule_release reader immediate w).inst =
      { w.inst with
        release_pending_ := (schedule_release reader immediate w).inst.release_pending_
        release_timer_id_ := (schedule_release reader immediate w).inst.release_timer_id_ } ∧
    (schedule_release reader immediate w).ownership_calls = w.ownership_calls ∧
    (schedule_release reader immediate w).reader_calls = w.reader_calls := by
  unfold schedule_release
  split
  · simp
  · split_ifs
    · obtain ⟨h1, h2, h3⟩ := execute_or_enqueue_frame immediate
        (Command.ScheduleCommand (duration_to_time_value ‹Duration_t›)) (cancel_release immediate w)
      obtain ⟨g1, g2, g3⟩ := execute_or_enqueue_frame immediate Command.CancelCommand
        { w with inst := { w.inst with release_pending_ := false } }
      refine ⟨?_, ?_, ?_⟩
      · rw [h1]; unfold cancel_release; rw [g1]
      · rw [h2]; unfold cancel_release; rw [g2]
      · rw [h3]; unfold cancel_release; rw [g3]
    · simp [schedule_pending]

@[simp] theorem schedule_release_instance_state (reader : DataReaderImpl) (immediate : Bool)
    (w : World) :
    (schedule_release reader immediate w).inst.instance_state_ = w.inst.instance_state_ := by
  rw [(schedule_release_frame reader immediate w).1]

@[simp] theorem schedule_release_writers (reader : DataReaderImpl) (immediate : Bool)
    (w : World) :
    (schedule_release reader immediate w).inst.writers_ = w.inst.writers_ := by
  rw [(schedule_release_frame reader immediate w).1]

@[simp] theorem schedule_release_disposed_generation_count (reader : DataReaderImpl)
    (immediate : Bool) (w : World) :
    (schedule_release reader immediate w).inst.disposed_generation_count_ =
      w.inst.disposed_generation_count_ := by
  rw [(schedule_release_frame reader immediate w).1]

@[simp] theorem schedule_release_no_writers_generation_count (reader : DataReaderImpl)
    (immediate : Bool) (w : World) :
    (schedule_release reader immediate w).inst.no_writers_generation_count_ =
      w.inst.no_writers_generation_count_ := by
  rw [(schedule_release_frame reader immediate w).1]

@[simp] theorem schedule_release_ownership_calls (reader : DataReaderImpl) (immediate : Bool)
    (w : World) :
    (schedule_release reader immediate w).ownership_calls = w.ownership_calls :=
  (schedule_release_frame reader immediate w).2.1

@[simp] theorem schedule_release_reader_calls (reader : DataReaderImpl) (immediate : Bool)
    (w : World) :
    (schedule_release reader immediate w).reader_calls = w.reader_calls :=
  (schedule_release_frame reader immediate w).2.2

theorem not_alive_disposed_not_alive : ¬ is_alive NOT_ALIVE_DISPOSED_INSTANCE_STATE := by decide

theorem not_alive_no_writers_not_alive : ¬ is_alive NOT_ALIVE_NO_WRITERS_INSTANCE_STATE := by
  decide

/-! ## Closed forms of the notifications -/

/-- Closed form of `unregister_was_received`. -/
theorem unregister_was_received_eq (reader : DataReaderImpl) (immediate : Bool)
    (writer_id : PublicationId) (w : World) :
    unregister_was_received reader immediate writer_id w =
      if w.inst.writers_.erase writer_id = ∅ ∧ is_alive w.inst.instance_state_ then
        (true, schedule_release reader immediate
          { w with
            inst := { w.inst with
              writers_ := w.inst.writers_.erase writer_id
              instance_state_ := NOT_ALIVE_NO_WRITERS_INSTANCE_STATE }
            ownership_calls := w.ownership_calls ++ remove_writer_calls reader writer_id w })
      else
        (false,
          { w with
            inst := { w.inst with writers_ := w.inst.writers_.erase writer_id }
            ownership_calls := w.ownership_calls ++ remove_writer_calls reader writer_id w }) := by
  unfold unregister_was_received remove_writer_calls is_alive
  by_cases hc : w.inst.writers_.erase writer_id = ∅ ∧
      w.inst.instance_state_ &&& ALIVE_INSTANCE_STATE ≠ 0
  · cases hx : w.inst.exclusive_ <;> cases hom : reader.ownership_manager <;>
      simp [hx, hom, hc]
  · cases hx : w.inst.exclusive_ <;> cases hom : reader.ownership_manager <;>
      simp [hx, hom, hc]

/-- Closed form of `writer_became_dead`. -/
theorem writer_became_dead_eq (reader : DataReaderImpl) (immediate : Bool)
    (writer_id : PublicationId) (w : World) :
    writer_became_dead reader immediate writer_id w =
      if w.inst.writers_.erase writer_id = ∅ ∧ is_alive w.inst.instance_state_ then
        schedule_release reader immediate
          { w with
            inst := { w.inst with
              writers_ := w.inst.writers_.erase writer_id
              instance_state_ := NOT_ALIVE_NO_WRITERS_INSTANCE_STATE } }
      else { w with inst := { w.inst with writers_ := w.inst.writers_.erase writer_id } } := by
  unfold writer_became_dead is_alive
  rfl

/-- Closed form of `dispose_was_received`. -/
theorem dispose_was_received_eq (reader : DataReaderImpl) (immediate : Bool)
    (writer_id : PublicationId) (w : World) :
    dispose_was_received reader immediate writer_id w =
      if is_alive w.inst.instance_state_ ∧ dispose_authorized reader writer_id w = true then
        (true, schedule_release reader immediate
          { w with
            inst := { w.inst with
              writers_ := w.inst.writers_.erase writer_id
              instance_state_ := NOT_ALIVE_DISPOSED_INSTANCE_STATE }
            ownership_calls := w.ownership_calls ++ is_owner_calls reader writer_id w })
      else
        (false,
          { w with
            inst := { w.inst with writers_ := w.inst.writers_.erase writer_id }
            ownership_calls := w.ownership_calls ++ is_owner_calls reader writer_id w }) := by
  unfold dispose_was_received is_owner_calls dispose_authorized is_alive
  by_cases ha : w.inst.instance_state_ &&& ALIVE_INSTANCE_STATE ≠ 0
  · cases hx : w.inst.exclusive_ <;> cases hom : reader.ownership_manager
    · simp [hx, hom, ha]
    · simp [hx, hom, ha]
    · simp [hx, hom, ha]
    · rename_i om
      cases ho : om.is_owner w.inst.handle_ writer_id <;> simp [hx, hom, ha, ho]
  · cases hx : w.inst.exclusive_ <;> cases hom : reader.ownership_manager <;>
      simp [hx, hom, ha]

/-! ## Notifications: dispose, unregister, writer death -/

/-- C1: `dispose_was_received` returns true exactly when the stored state has the ALIVE
bit set and ownership is non-exclusive or the ownership manager is present and
confirms the writer as owner of the instance handle; the stored state afterwards
is NOT_ALIVE_DISPOSED when it returns true and the previous state when it returns
false. -/
theorem dispose_was_received_result (reader : DataReaderImpl) (immediate : Bool)
    (writer_id : PublicationId) (w : World) :
    ((dispose_was_received reader immediate writer_id w).1 = true ↔
      (is_alive w.inst.instance_state_ ∧
        (w.inst.exclusive_ = false ∨
          ∃ om, reader.ownership_manager = some om ∧
            om.is_owner w.inst.handle_ writer_id = true))) ∧
    (dispose_was_received reader immediate writer_id w).2.inst.instance_state_ =
      (if (dispose_was_received reader immediate writer_id w).1 = true then
        NOT_ALIVE_DISPOSED_INSTANCE_STATE
      else w.inst.instance_state_) := by
  unfold dispose_was_received is_alive
  by_cases ha : w.inst.instance_state_ &&& ALIVE_INSTANCE_STATE ≠ 0
  · by_cases hx : w.inst.exclusive_ = false
    · simp [ha, hx]
    · cases hom : reader.ownership_manager with
      | none => simp [ha, hx]
      | some om =>
        by_cases ho : om.is_owner w.inst.handle_ writer_id = true
        · simp [ha, hx, ho]
        · simp [ha, hx, ho]
  · simp [ha]

/-- C2: `unregister_was_received` and `writer_became_dead` remove the writer and then
move the state to NOT_ALIVE_NO_WRITERS exactly when the writer set is empty after
the removal and the stored state has the ALIVE bit; otherwise (in particular when
other writers remain) the state is unchanged. From a state with the ALIVE bit the
new state is NOT_ALIVE_NO_WRITERS if and only if the writer set is empty after the
removal, and `unregister_was_received` returns true exactly when it performed the
transition. -/
theorem unregister_and_writer_dead_transition (reader : DataReaderImpl) (immediate : Bool)
    (writer_id : PublicationId) (w : World) :
    (unregister_was_received reader immediate writer_id w).2.inst.writers_ =
      w.inst.writers_.erase writer_id ∧
    (writer_became_dead reader immediate writer_id w).inst.writers_ =
      w.inst.writers_.erase writer_id ∧
    (unregister_was_received reader immediate writer_id w).2.inst.instance_state_ =
      (if w.inst.writers_.erase writer_id = ∅ ∧ is_alive w.inst.instance_state_ then
        NOT_ALIVE_NO_WRITERS_INSTANCE_STATE
      else w.inst.instance_state_) ∧
    (writer_became_dead reader immediate writer_id w).inst.instance_state_ =
      (if w.inst.writers_.erase writer_id = ∅ ∧ is_alive w.inst.instance_state_ then
        NOT_ALIVE_NO_WRITERS_INSTANCE_STATE
      else w.inst.instance_state_) ∧
    ((unregister_was_received reader immediate writer_id w).1 = true ↔
      (w.inst.writers_.erase writer_id = ∅ ∧ is_alive w.inst.instance_state_)) ∧
    (is_alive w.inst.instance_state_ →
      (((unregister_was_received reader immediate writer_id w).2.inst.instance_state_ =
          NOT_ALIVE_NO_WRITERS_INSTANCE_STATE ↔ w.inst.writers_.erase writer_id = ∅) ∧
        ((writer_became_dead reader immediate writer_id w).inst.instance_state_ =
          NOT_ALIVE_NO_WRITERS_INSTANCE_STATE ↔ w.inst.writers_.erase writer_id = ∅))) := by
  have hu : (unregister_was_received reader immediate writer_id w).2.inst.instance_state_ =
      (if w.inst.writers_.erase writer_id = ∅ ∧ is_alive w.inst.instance_state_ then
        NOT_ALIVE_NO_WRITERS_INSTANCE_STATE
      else w.inst.instance_state_) := by
    rw [unregister_was_received_eq]
    split_ifs <;> simp
  have hd : (writer_became_dead reader immediate writer_id w).inst.instance_state_ =
      (if w.inst.writers_.erase writer_id = ∅ ∧ is_alive w.inst.instance_state_ then
        NOT_ALIVE_NO_WRITERS_INSTANCE_STATE
      else w.inst.instance_state_) := by
    rw [writer_became_dead_eq]
    split_ifs <;> simp
  refine ⟨?_, ?_, hu, hd, ?_, ?_⟩
  · rw [unregister_was_received_eq]
    split_ifs <;> simp
  · rw [writer_became_dead_eq]
    split_ifs <;> simp
  · rw [unregister_was_received_eq]
    split_ifs with h <;> simp [h]
  · intro ha
    rw [hu, hd]
    by_cases he : w.inst.writers_.erase writer_id = ∅
    · simp [he, ha]
    · have hne : w.inst.instance_state_ ≠ NOT_ALIVE_NO_WRITERS_INSTANCE_STATE := by
        intro h
        rw [h] at ha
        exact not_alive_no_writers_not_alive ha
      simp [he, hne]

/-- Witness of C2: the last writer of an ALIVE instance unregisters. -/
theorem unregister_and_writer_dead_transition_witness :
    is_alive (example_single_writer_world false).inst.instance_state_ ∧
    (((unregister_was_received example_reader true 1
          (example_single_writer_world false)).2.inst.instance_state_ =
        NOT_ALIVE_NO_WRITERS_INSTANCE_STATE ↔
      (example_single_writer_world false).inst.writers_.erase 1 = ∅) ∧
    ((writer_became_dead example_reader true 1
          (example_single_writer_world false)).inst.instance_state_ =
        NOT_ALIVE_NO_WRITERS_INSTANCE_STATE ↔
      (example_single_writer_world false).inst.writers_.erase 1 = ∅)) :=
  ⟨by decide,
    (unregister_and_writer_dead_transition example_reader true 1
      (example_single_writer_world false)).2.2.2.2.2 (by decide)⟩

/-- Counterexample to C3: from writers `{1}`, state ALIVE and both counters `0`,
`unregister_was_received 1` performs the transition to NOT_ALIVE_NO_WRITERS and
`no_writers_generation_count_` is still `0`, not `1`. -/
theorem generation_count_increment_counterexample :
    (example_single_writer_world false).inst.writers_ = {1} ∧
    (example_single_writer_world false).inst.instance_state_ = ALIVE_INSTANCE_STATE ∧
    (example_single_writer_world false).inst.no_writers_generation_count_ = 0 ∧
    (unregister_was_received example_reader true 1 (example_single_writer_world false)).1 = true ∧
    (unregister_was_received example_reader true 1
      (example_single_writer_world false)).2.inst.instance_state_ =
        NOT_ALIVE_NO_WRITERS_INSTANCE_STATE ∧
    ¬ (unregister_was_received example_reader true 1
      (example_single_writer_world false)).2.inst.no_writers_generation_count_ = 1 := by
  decide

/-- C3 (amended): the three notifications never change a generation counter: after
`dispose_was_received`, `unregister_was_received` and `writer_became_dead`, whether
or not they perform a NOT_ALIVE transition, `disposed_generation_count_` and
`no_writers_generation_count_` have the values they had before the call. -/
theorem notifications_keep_generation_counts (reader : DataReaderImpl) (immediate : Bool)
    (writer_id : PublicationId) (w : World) :
    ((dispose_was_received reader immediate writer_id w).2.inst.disposed_generation_count_ =
        w.inst.disposed_generation_count_ ∧
      (dispose_was_received reader immediate writer_id w).2.inst.no_writers_generation_count_ =
        w.inst.no_writers_generation_count_) ∧
    ((unregister_was_received reader immediate writer_id w).2.inst.disposed_generation_count_ =
        w.inst.disposed_generation_count_ ∧
      (unregister_was_received reader immediate writer_id w).2.inst.no_writers_generation_count_ =
        w.inst.no_writers_generation_count_) ∧
    ((writer_became_dead reader immediate writer_id w).inst.disposed_generation_count_ =
        w.inst.disposed_generation_count_ ∧
      (writer_became_dead reader immediate writer_id w).inst.no_writers_generation_count_ =
        w.inst.no_writers_generation_count_) := by
  rw [dispose_was_received_eq, unregister_was_received_eq, writer_became_dead_eq]
  refine ⟨?_, ?_, ?_⟩ <;> split_ifs <;> simp

/-- C4: under exclusive ownership, when the ownership manager is absent or does
not confirm the writer as owner of the instance, `dispose_was_received` returns
false, leaves the stored state, `release_pending_` and the stored timer id unchanged,
makes no call on the reactor and queues no command, and the writer set afterwards
is the previous one with exactly that writer removed. -/
theorem dispose_by_non_owner (reader : DataReaderImpl) (immediate : Bool)
    (writer_id : PublicationId) (w : World)
    (hexclusive : w.inst.exclusive_ = true)
    (hnot_owner : ∀ om, reader.ownership_manager = some om →
      om.is_owner w.inst.handle_ writer_id = false) :
    (dispose_was_received reader immediate writer_id w).1 = false ∧
    (dispose_was_received reader immediate writer_id w).2.inst.instance_state_ =
      w.inst.instance_state_ ∧
    (dispose_was_received reader immediate writer_id w).2.inst.release_pending_ =
      w.inst.release_pending_ ∧
    (dispose_was_received reader immediate writer_id w).2.inst.release_timer_id_ =
      w.inst.release_timer_id_ ∧
    (dispose_was_received reader immediate writer_id w).2.reactor = w.reactor ∧
    (dispose_was_received reader immediate writer_id w).2.command_queue_ = w.command_queue_ ∧
    (dispose_was_received reader immediate writer_id w).2.inst.writers_ =
      w.inst.writers_.erase writer_id ∧
    writer_id ∉ (dispose_was_received reader immediate writer_id w).2.inst.writers_ ∧
    (∀ x, x ≠ writer_id →
      (x ∈ (dispose_was_received reader immediate writer_id w).2.inst.writers_ ↔
        x ∈ w.inst.writers_)) := by
  have hauth : dispose_authorized reader writer_id w = false := by
    unfold dispose_authorized
    cases hom : reader.ownership_manager with
    | none => simp [hexclusive]
    | some om => simp [hexclusive, hnot_owner om hom]
  rw [dispose_was_received_eq]
  simp only [hauth]
  simp
  intro x hx _
  exact hx

/-- Witness of C4: writer `2` disposes an exclusively owned instance whose owner,
according to the ownership manager, is writer `1`. -/
theorem dispose_by_non_owner_witness :
    (example_world true).inst.exclusive_ = true ∧
    (∀ om, example_exclusive_reader.ownership_manager = some om →
      om.is_owner (example_world true).inst.handle_ 2 = false) ∧
    (dispose_was_received example_exclusive_reader true 2 (example_world true)).1 = false ∧
    (dispose_was_received example_exclusive_reader true 2
      (example_world true)).2.inst.instance_state_ = ALIVE_INSTANCE_STATE ∧
    (dispose_was_received example_exclusive_reader true 2
      (example_world true)).2.inst.writers_ = {1} :=
  have h := dispose_by_non_owner example_exclusive_reader true 2 (example_world true) rfl
    (by intro om hom; cases hom; rfl)
  ⟨rfl, by intro om hom; cases hom; rfl, h.1, h.2.1, by rw [h.2.2.2.2.2.2.1]; decide⟩


/-- The calls received by the ownership manager do not influence `schedule_release`. -/
theorem schedule_release_ownership_calls_comm (reader : DataReaderImpl) (immediate : Bool)
    (i : InstanceState) (r : Reactor) (q : List Command) (c c' : List OwnershipCall)
    (rc : List ReaderCall) :
    schedule_release reader immediate ⟨i, r, q, c, rc⟩ =
      { schedule_release reader immediate ⟨i, r, q, c', rc⟩ with ownership_calls := c } := by
  unfold schedule_release
  cases h : release_delay reader i.instance_state_ with
  | none => simp [h]
  | some delay =>
    simp only [h]
    cases immediate <;>
      simp only [execute_or_enqueue, cancel_release, Command.execute, CancelCommand.execute,
        ScheduleCommand.execute, schedule_pending] <;>
      split_ifs <;> simp

/-- Counterexample to C5: with exclusive ownership and the ownership manager present,
`unregister_was_received` calls `remove_writer` on the manager and `writer_became_dead`
calls nothing. -/
theorem writer_became_dead_identical_counterexample :
    (writer_became_dead example_exclusive_reader true 1
      (example_single_writer_world true)).ownership_calls = [] ∧
    (unregister_was_received example_exclusive_reader true 1
      (example_single_writer_world true)).2.ownership_calls =
        [OwnershipCall.remove_writer 9 1] ∧
    writer_became_dead example_exclusive_reader true 1 (example_single_writer_world true) ≠
      (unregister_was_received example_exclusive_reader true 1
        (example_single_writer_world true)).2 := by
  decide

/-- C5 (amended): `writer_became_dead` leaves the fields of the object, the reactor, the
command queue and the calls received by the reader exactly as `unregister_was_received`
does from the same start, and makes no call on the ownership manager, whereas
`unregister_was_received` makes one `remove_writer` call when ownership is exclusive
and the manager is present; so the two have the same effect exactly when ownership
is non-exclusive or the manager is absent. -/
theorem writer_became_dead_vs_unregister (reader : DataReaderImpl) (immediate : Bool)
    (writer_id : PublicationId) (w : World) :
    writer_became_dead reader immediate writer_id w =
      { (unregister_was_received reader immediate writer_id w).2 with
        ownership_calls := w.ownership_calls } ∧
    (unregister_was_received reader immediate writer_id w).2.ownership_calls =
      w.ownership_calls ++
        (if w.inst.exclusive_ = true ∧ reader.ownership_manager.isSome = true then
          [OwnershipCall.remove_writer w.inst.handle_ writer_id]
        else []) ∧
    (writer_became_dead reader immediate writer_id w =
        (unregister_was_received reader immediate writer_id w).2 ↔
      (w.inst.exclusive_ = false ∨ reader.ownership_manager = none)) := by
  have h1 : writer_became_dead reader immediate writer_id w =
      { (unregister_was_received reader immediate writer_id w).2 with
        ownership_calls := w.ownership_calls } := by
    rw [writer_became_dead_eq, unregister_was_received_eq]
    split_ifs
    · exact schedule_release_ownership_calls_comm reader immediate _ _ _ _ _ _
    · rfl
  have h2 : (unregister_was_received reader immediate writer_id w).2.ownership_calls =
      w.ownership_calls ++ remove_writer_calls reader writer_id w := by
    rw [unregister_was_received_eq]
    split_ifs <;> simp
  refine ⟨h1, h2, ?_⟩
  constructor
  · intro h
    have h3 := congrArg World.ownership_calls h
    rw [h2, h1] at h3
    simp only [remove_writer_calls] at h3
    by_contra hcon
    push_neg at hcon
    have hs : reader.ownership_manager.isSome = true := by
      cases hom : reader.ownership_manager with
      | none => exact absurd hom hcon.2
      | some _ => rfl
    have hx : w.inst.exclusive_ = true := by
      cases hb : w.inst.exclusive_ with
      | false => exact absurd hb hcon.1
      | true => rfl
    simp [hs, hx] at h3
  · intro h
    have h0 : remove_writer_calls reader writer_id w = [] := by
      unfold remove_writer_calls
      rcases h with h | h <;> simp [h]
    rw [h1]
    have h4 : (unregister_was_received reader immediate writer_id w).2.ownership_calls =
        w.ownership_calls := by rw [h2, h0]; simp
    rw [← h4]


/-! ## The stored state only leaves ALIVE -/

/-- Executing queued commands does not change the stored state. -/
theorem foldl_execute_instance_state (q : List Command) (v : World) :
    (q.foldl (fun v cmd => cmd.execute v) v).inst.instance_state_ = v.inst.instance_state_ := by
  induction q generalizing v with
  | nil => rfl
  | cons cmd q ih =>
    rw [List.foldl_cons, ih, (command_execute_frame cmd v).1]

/-- One operation leaves the stored state unchanged or moves it from a state with
the ALIVE bit to NOT_ALIVE_DISPOSED or NOT_ALIVE_NO_WRITERS. -/
theorem step_instance_state (reader : DataReaderImpl) (immediate : Bool) (op : Op) (w : World) :
    (step reader immediate op w).inst.instance_state_ = w.inst.instance_state_ ∨
    (is_alive w.inst.instance_state_ ∧
      ((step reader immediate op w).inst.instance_state_ = NOT_ALIVE_DISPOSED_INSTANCE_STATE ∨
        (step reader immediate op w).inst.instance_state_ =
          NOT_ALIVE_NO_WRITERS_INSTANCE_STATE)) := by
  cases op with
  | dispose_was_received writer_id =>
    simp only [step]
    rw [dispose_was_received_eq]
    split_ifs with h
    · right; exact ⟨h.1, Or.inl (by simp)⟩
    · left; rfl
  | unregister_was_received writer_id =>
    simp only [step]
    rw [unregister_was_received_eq]
    split_ifs with h
    · right; exact ⟨h.2, Or.inr (by simp)⟩
    · left; rfl
  | writer_became_dead writer_id =>
    simp only [step]
    rw [writer_became_dead_eq]
    split_ifs with h
    · right; exact ⟨h.2, Or.inr (by simp)⟩
    · left; rfl
  | schedule_pending => left; rfl
  | schedule_release => left; simp [step]
  | cancel_release =>
    left
    simp only [step, cancel_release]
    rw [(execute_or_enqueue_frame immediate Command.CancelCommand _).1]
  | release_if_empty =>
    left
    simp only [step, release_if_empty]
    split_ifs <;> rfl
  | release => left; rfl
  | handle_timeout => left; rfl
  | set_owner owner => left; rfl
  | registered => left; rfl
  | registered_flag flag => left; rfl
  | reset_ownership h => left; rfl
  | process_command_queue =>
    left
    simp only [step, process_command_queue]
    rw [foldl_execute_instance_state]
  | timer_expires =>
    left
    simp only [step, timer_expires]
    split <;> rfl

/-- C6: every operation of the object (the three notifications, `schedule_release`,
`cancel_release`, `release_if_empty`, `registered`, `reset_ownership`, the timer
callback and the remaining ones) either leaves the stored state unchanged or
moves it from a state with the ALIVE bit to NOT_ALIVE_DISPOSED or
NOT_ALIVE_NO_WRITERS; the same holds for every sequence of operations, so no
sequence takes a state without the ALIVE bit to one with it. -/
theorem state_only_leaves_alive (ops : List (DataReaderImpl × Bool × Op)) (w : World) :
    (∀ (reader : DataReaderImpl) (immediate : Bool) (op : Op),
      (step reader immediate op w).inst.instance_state_ = w.inst.instance_state_ ∨
      (is_alive w.inst.instance_state_ ∧
        ((step reader immediate op w).inst.instance_state_ =
            NOT_ALIVE_DISPOSED_INSTANCE_STATE ∨
          (step reader immediate op w).inst.instance_state_ =
            NOT_ALIVE_NO_WRITERS_INSTANCE_STATE))) ∧
    ((run ops w).inst.instance_state_ = w.inst.instance_state_ ∨
      (is_alive w.inst.instance_state_ ∧
        ((run ops w).inst.instance_state_ = NOT_ALIVE_DISPOSED_INSTANCE_STATE ∨
          (run ops w).inst.instance_state_ = NOT_ALIVE_NO_WRITERS_INSTANCE_STATE))) ∧
    (¬ is_alive w.inst.instance_state_ → ¬ is_alive (run ops w).inst.instance_state_) := by
  have hrun : ∀ (ops : List (DataReaderImpl × Bool × Op)) (w : World),
      (run ops w).inst.instance_state_ = w.inst.instance_state_ ∨
      (is_alive w.inst.instance_state_ ∧
        ((run ops w).inst.instance_state_ = NOT_ALIVE_DISPOSED_INSTANCE_STATE ∨
          (run ops w).inst.instance_state_ = NOT_ALIVE_NO_WRITERS_INSTANCE_STATE)) := by
    intro ops
    induction ops with
    | nil => intro w; left; rfl
    | cons o ops ih =>
      intro w
      have hstep := step_instance_state o.1 o.2.1 o.2.2 w
      have hrest := ih (step o.1 o.2.1 o.2.2 w)
      have hcons : run (o :: ops) w = run ops (step o.1 o.2.1 o.2.2 w) := rfl
      rw [hcons]
      rcases hstep with hs | ⟨ha, hs⟩
      · rw [hs] at hrest
        exact hrest
      · rcases hrest with hr | ⟨ha', _⟩
        · right
          rw [hr]
          exact ⟨ha, hs⟩
        · exfalso
          rcases hs with hs | hs
          · rw [hs] at ha'; exact not_alive_disposed_not_alive ha'
          · rw [hs] at ha'; exact not_alive_no_writers_not_alive ha'
  refine ⟨fun reader immediate op => step_instance_state reader immediate op w, hrun ops w, ?_⟩
  intro hna
  rcases hrun ops w with h | ⟨ha, _⟩
  · rw [h]; exact hna
  · exact absurd ha hna

/-- Witness of C6: a disposed instance stays without the ALIVE bit through a later
unregistration, a release attempt, an ownership reset and a timer expiry. -/
theorem state_only_leaves_alive_witness :
    ¬ is_alive (step example_reader true (Op.dispose_was_received 1)
      (example_world false)).inst.instance_state_ ∧
    ¬ is_alive (run
      [(example_reader, true, Op.unregister_was_received 2),
        (example_reader, true, Op.release_if_empty),
        (example_reader, false, Op.reset_ownership 9),
        (example_reader, true, Op.timer_expires)]
      (step example_reader true (Op.dispose_was_received 1)
        (example_world false))).inst.instance_state_ :=
  ⟨by decide,
    (state_only_leaves_alive _ _).2.2 (by decide)⟩

/-! ## Release -/

/-- C7: `release_if_empty` returns true exactly when `empty_` is true and the writer
set is empty; in that case it makes one `release_instance` request for the handle
of the instance and changes no field of the object; in every other case it
returns false, makes no request on the reader and leaves `release_pending_` true. -/
theorem release_if_empty_result (w : World) :
    ((release_if_empty w).1 = true ↔ (w.inst.empty_ = true ∧ w.inst.writers_ = ∅)) ∧
    ((release_if_empty w).1 = true →
      (release_if_empty w).2.reader_calls =
          w.reader_calls ++ [ReaderCall.release_instance w.inst.handle_] ∧
        (release_if_empty w).2.inst = w.inst) ∧
    ((release_if_empty w).1 = false →
      (release_if_empty w).2.reader_calls = w.reader_calls ∧
        (release_if_empty w).2.inst.release_pending_ = true) := by
  unfold release_if_empty
  split_ifs with h
  · simp [h, release]
  · simp [h, schedule_pending]

/-- Witness of C7: an instance with an empty queue and no writer is released, one
with writers is marked pending. -/
theorem release_if_empty_result_witness :
    ((release_if_empty ⟨InstanceState.new false 9, ⟨[], [], []⟩, [], [], []⟩).1 = true ∧
      (release_if_empty ⟨InstanceState.new false 9, ⟨[], [], []⟩, [], [], []⟩).2.reader_calls =
        [ReaderCall.release_instance 9]) ∧
    ((release_if_empty (example_world false)).1 = false ∧
      (release_if_empty (example_world false)).2.reader_calls = [] ∧
      (release_if_empty (example_world false)).2.inst.release_pending_ = true) :=
  ⟨⟨by decide,
      ((release_if_empty_result ⟨InstanceState.new false 9, ⟨[], [], []⟩, [], [], []⟩).2.1
        (by decide)).1⟩,
    ⟨by decide, (release_if_empty_result (example_world false)).2.2 (by decide)⟩⟩


/-! ## The schedule-release step -/

/-- C8: when the delay configured for the stored NOT_ALIVE state is the infinite
sentinel, `schedule_release` makes no call on the reactor, queues no command,
leaves the stored timer id unchanged and leaves `release_pending_` true. -/
theorem schedule_release_infinite_delay (reader : DataReaderImpl) (immediate : Bool) (w : World)
    (h : (w.inst.instance_state_ = NOT_ALIVE_NO_WRITERS_INSTANCE_STATE ∧
          reader.autopurge_nowriter_samples_delay = DURATION_INFINITE) ∨
        (w.inst.instance_state_ = NOT_ALIVE_DISPOSED_INSTANCE_STATE ∧
          reader.autopurge_disposed_samples_delay = DURATION_INFINITE)) :
    (schedule_release reader immediate w).reactor = w.reactor ∧
    (schedule_release reader immediate w).command_queue_ = w.command_queue_ ∧
    (schedule_release reader immediate w).inst.release_timer_id_ = w.inst.release_timer_id_ ∧
    (schedule_release reader immediate w).inst.release_pending_ = true := by
  have hd : release_delay reader w.inst.instance_state_ = some DURATION_INFINITE := by
    unfold release_delay
    rcases h with ⟨hs, hd⟩ | ⟨hs, hd⟩
    · simp [hs, hd]
    · rw [hs, hd]
      simp [NOT_ALIVE_DISPOSED_INSTANCE_STATE, NOT_ALIVE_NO_WRITERS_INSTANCE_STATE]
  unfold schedule_release
  rw [hd]
  simp [DURATION_INFINITE, schedule_pending]

/-- Witness of C8: an instance in state NOT_ALIVE_NO_WRITERS under a reader with
infinite delays. -/
theorem schedule_release_infinite_delay_witness :
    (example_no_writers_world.inst.instance_state_ = NOT_ALIVE_NO_WRITERS_INSTANCE_STATE ∧
      example_infinite_reader.autopurge_nowriter_samples_delay = DURATION_INFINITE) ∧
    (schedule_release example_infinite_reader true example_no_writers_world).reactor =
      example_no_writers_world.reactor ∧
    (schedule_release example_infinite_reader true
      example_no_writers_world).inst.release_pending_ = true :=
  have h := schedule_release_infinite_delay example_infinite_reader true example_no_writers_world
    (Or.inl ⟨rfl, rfl⟩)
  ⟨⟨rfl, rfl⟩, h.1, h.2.2.2⟩

/-- The timer branch of `schedule_release`, taken when both fields of the configured
delay differ from the infinite constants: `release_pending_` is cleared, a
`CancelCommand` and then a `ScheduleCommand` with the delay are handed over. -/
theorem schedule_release_timer_branch (reader : DataReaderImpl) (immediate : Bool) (w : World)
    (delay : Duration_t) (hd : release_delay reader w.inst.instance_state_ = some delay)
    (hsec : delay.sec ≠ DURATION_INFINITE_SEC) (hnsec : delay.nanosec ≠ DURATION_INFINITE_NSEC) :
    schedule_release reader immediate w =
      execute_or_enqueue immediate (Command.ScheduleCommand (duration_to_time_value delay))
        (execute_or_enqueue immediate Command.CancelCommand
          { w with inst := { w.inst with release_pending_ := false } }) := by
  unfold schedule_release
  rw [hd]
  simp [hsec, hnsec, cancel_release]

/-- C9 (the code at the failing input): the no-writers delay `(DURATION_INFINITE_SEC, 0)`
is not the infinite sentinel, yet `schedule_release` in state NOT_ALIVE_NO_WRITERS
makes no call on the reactor, queues no command, stores no timer id and only
sets `release_pending_`; the same happens when `unregister_was_received` performs the
transition. -/
theorem schedule_release_long_delay_not_scheduled :
    example_long_delay_reader.autopurge_nowriter_samples_delay ≠ DURATION_INFINITE ∧
    example_no_writers_world.inst.instance_state_ = NOT_ALIVE_NO_WRITERS_INSTANCE_STATE ∧
    (schedule_release example_long_delay_reader true example_no_writers_world).reactor.calls = [] ∧
    (schedule_release example_long_delay_reader true example_no_writers_world).reactor.timers = [] ∧
    (schedule_release example_long_delay_reader false example_no_writers_world).command_queue_ =
      [] ∧
    (schedule_release example_long_delay_reader true
      example_no_writers_world).inst.release_timer_id_ = -1 ∧
    (schedule_release example_long_delay_reader true
      example_no_writers_world).inst.release_pending_ = true ∧
    (unregister_was_received example_long_delay_reader true 1
      (example_single_writer_world false)).1 = true ∧
    (unregister_was_received example_long_delay_reader true 1
      (example_single_writer_world false)).2.reactor.calls = [] := by
  decide


/-! ## At most one timer -/

/-- After a `CancelCommand` no timer is pending, provided the invariant held. -/
theorem cancel_command_execute_timers (w : World) (h : timer_invariant w) :
    (CancelCommand.execute w).reactor.timers = [] := by
  unfold CancelCommand.execute
  split_ifs with hid
  · rfl
  · exact h.1 (not_not.mp hid)

/-- A `CancelCommand` keeps the timer invariant. -/
theorem cancel_command_execute_invariant (w : World) (h : timer_invariant w) :
    timer_invariant (CancelCommand.execute w) := by
  have ht := cancel_command_execute_timers w h
  exact ⟨fun _ => ht, by rw [ht]; simp⟩

/-- A `ScheduleCommand` executed while no timer is pending keeps the timer invariant. -/
theorem schedule_command_execute_invariant (delay_ : ACE_Time_Value) (w : World)
    (h : w.reactor.timers = []) : timer_invariant (ScheduleCommand.execute delay_ w) := by
  unfold ScheduleCommand.execute Reactor.schedule_timer timer_invariant
  cases ha : w.reactor.answers with
  | nil => simp [h]
  | cons a rest =>
    by_cases hf : a = -1
    · simp [hf, h]
    · simp [hf, h]

/-- Executing a well-formed queue keeps the timer invariant. -/
theorem foldl_execute_invariant (q : List Command) :
    ∀ v : World, queue_well_formed q = true → timer_invariant v →
      timer_invariant (q.foldl (fun v cmd => cmd.execute v) v) := by
  induction q using queue_well_formed.induct with
  | case1 => intro v _ hv; exact hv
  | case2 d rest => intro v hq _; simp [queue_well_formed] at hq
  | case3 d rest ih =>
    intro v hq hv
    simp only [List.foldl_cons, Command.execute]
    apply ih
    · simpa [queue_well_formed] using hq
    · exact schedule_command_execute_invariant d _ (cancel_command_execute_timers v hv)
  | case4 rest hrest ih =>
    intro v hq hv
    simp only [List.foldl_cons, Command.execute]
    apply ih
    · rw [queue_well_formed] at hq
      · exact hq
      · exact hrest
    · exact cancel_command_execute_invariant v hv

/-- Appending a well-formed queue to a well-formed queue gives a well-formed queue. -/
theorem queue_well_formed_append (a b : List Command) :
    queue_well_formed a = true → queue_well_formed b = true →
      queue_well_formed (a ++ b) = true := by
  induction a using queue_well_formed.induct with
  | case1 => intro _ hb; simpa using hb
  | case2 d rest => intro ha _; simp [queue_well_formed] at ha
  | case3 d rest ih =>
    intro ha hb
    have ha' : queue_well_formed rest = true := by simpa [queue_well_formed] using ha
    have := ih ha' hb
    simpa [queue_well_formed] using this
  | case4 rest hrest ih =>
    intro ha hb
    have ha' : queue_well_formed rest = true := by
      rw [queue_well_formed] at ha
      · exact ha
      · exact hrest
    have hrec := ih ha' hb
    cases rest with
    | nil =>
      cases b with
      | nil => rfl
      | cons c b' =>
        cases c with
        | CancelCommand => simpa [queue_well_formed] using hb
        | ScheduleCommand d => simp [queue_well_formed] at hb
    | cons c rest' =>
      cases c with
      | CancelCommand => simpa [queue_well_formed] using hrec
      | ScheduleCommand d => exact absurd rfl (hrest d rest')

/-- The method `cancel_release` keeps the invariant. -/
theorem cancel_release_invariant (immediate : Bool) (w : World) (h : release_invariant w) :
    release_invariant (cancel_release immediate w) := by
  obtain ⟨ht, hq⟩ := h
  cases immediate with
  | false =>
    refine ⟨ht, ?_⟩
    exact queue_well_formed_append w.command_queue_ [Command.CancelCommand] hq rfl
  | true =>
    refine ⟨cancel_command_execute_invariant _ ht, ?_⟩
    have e : (cancel_release true w).command_queue_ = w.command_queue_ :=
      (command_execute_frame Command.CancelCommand
        { w with inst := { w.inst with release_pending_ := false } }).2.1
    exact (congrArg queue_well_formed e).trans hq

/-- The method `schedule_release` keeps the invariant. -/
theorem schedule_release_invariant (reader : DataReaderImpl) (immediate : Bool) (w : World)
    (h : release_invariant w) : release_invariant (schedule_release reader immediate w) := by
  obtain ⟨ht, hq⟩ := h
  cases hd : release_delay reader w.inst.instance_state_ with
  | none =>
    unfold schedule_release
    rw [hd]
    exact ⟨ht, hq⟩
  | some delay =>
    by_cases hc : delay.sec ≠ DURATION_INFINITE_SEC ∧ delay.nanosec ≠ DURATION_INFINITE_NSEC
    · rw [schedule_release_timer_branch reader immediate w delay hd hc.1 hc.2]
      cases immediate with
      | false =>
        refine ⟨ht, ?_⟩
        have : queue_well_formed (w.command_queue_ ++
            [Command.CancelCommand, Command.ScheduleCommand (duration_to_time_value delay)]) =
            true := queue_well_formed_append _ _ hq rfl
        simpa [execute_or_enqueue] using this
      | true =>
        refine ⟨schedule_command_execute_invariant _ _ (cancel_command_execute_timers _ ht), ?_⟩
        have h1 := (command_execute_frame
          (Command.ScheduleCommand (duration_to_time_value delay))
          (Command.execute Command.CancelCommand
            { w with inst := { w.inst with release_pending_ := false } })).2.1
        have h2 := (command_execute_frame Command.CancelCommand
          { w with inst := { w.inst with release_pending_ := false } }).2.1
        exact (congrArg queue_well_formed (h1.trans h2)).trans hq
    · unfold schedule_release
      rw [hd]
      simp only [hc, if_false]
      exact ⟨ht, hq⟩

/-- Every operation keeps the invariant. -/
theorem step_invariant (reader : DataReaderImpl) (immediate : Bool) (op : Op) (w : World)
    (h : release_invariant w) : release_invariant (step reader immediate op w) := by
  cases op with
  | dispose_was_received writer_id =>
    simp only [step]
    rw [dispose_was_received_eq]
    split_ifs
    · exact schedule_release_invariant reader immediate _ h
    · exact h
  | unregister_was_received writer_id =>
    simp only [step]
    rw [unregister_was_received_eq]
    split_ifs
    · exact schedule_release_invariant reader immediate _ h
    · exact h
  | writer_became_dead writer_id =>
    simp only [step]
    rw [writer_became_dead_eq]
    split_ifs
    · exact schedule_release_invariant reader immediate _ h
    · exact h
  | schedule_pending => exact h
  | schedule_release => exact schedule_release_invariant reader immediate w h
  | cancel_release => exact cancel_release_invariant immediate w h
  | release_if_empty =>
    simp only [step, release_if_empty]
    split_ifs
    · exact h
    · exact h
  | release => exact h
  | handle_timeout => exact h
  | set_owner owner => exact h
  | registered => exact h
  | registered_flag flag => exact h
  | reset_ownership hdl => exact h
  | process_command_queue =>
    simp only [step, process_command_queue]
    refine ⟨foldl_execute_invariant w.command_queue_ _ h.2 h.1, ?_⟩
    have hq : ∀ (q : List Command) (v : World),
        (q.foldl (fun v cmd => cmd.execute v) v).command_queue_ = v.command_queue_ := by
      intro q
      induction q with
      | nil => intro v; rfl
      | cons cmd q ih => intro v; rw [List.foldl_cons, ih, (command_execute_frame cmd v).2.1]
    rw [hq]
    rfl
  | timer_expires =>
    simp only [step, timer_expires]
    obtain ⟨⟨h1, h2⟩, hq⟩ := h
    cases ht : w.reactor.timers with
    | nil => exact ⟨⟨h1, h2⟩, hq⟩
    | cons x rest =>
      rw [ht] at h2
      have hrest : rest = [] := by
        cases rest with
        | nil => rfl
        | cons y r => simp at h2
      subst hrest
      exact ⟨⟨fun _ => rfl, by simp [handle_timeout, release]⟩, hq⟩

/-- Every sequence of operations keeps the invariant. -/
theorem run_invariant (ops : List (DataReaderImpl × Bool × Op)) :
    ∀ w : World, release_invariant w → release_invariant (run ops w) := by
  induction ops with
  | nil => intro w h; exact h
  | cons o ops ih => intro w h; exact ih _ (step_invariant o.1 o.2.1 o.2.2 w h)

/-- C10: starting from an instance with no pending timer and no queued command
(whatever the stored timer id), after every sequence of operations (notifications,
`schedule_release`, `cancel_release`, queue processing, timer expiry and the rest) the
facility holds at most one pending timer for the instance; in particular after
two `schedule_release` calls in succession, also once their queued commands have been
executed. -/
theorem at_most_one_timer (ops : List (DataReaderImpl × Bool × Op)) (w : World)
    (htimers : w.reactor.timers = [])
    (hqueue : w.command_queue_ = []) :
    (run ops w).reactor.timers.length ≤ 1 ∧
    (∀ (r1 r2 : DataReaderImpl) (i1 i2 : Bool),
      (schedule_release r2 i2 (schedule_release r1 i1 w)).reactor.timers.length ≤ 1 ∧
      (process_command_queue
        (schedule_release r2 i2 (schedule_release r1 i1 w))).reactor.timers.length ≤ 1) := by
  have h0 : release_invariant w := by
    refine ⟨⟨fun _ => htimers, ?_⟩, ?_⟩
    · rw [htimers]; simp
    · rw [hqueue]; rfl
  refine ⟨(run_invariant ops w h0).1.2, ?_⟩
  intro r1 r2 i1 i2
  have h2 := schedule_release_invariant r2 i2 _ (schedule_release_invariant r1 i1 w h0)
  exact ⟨h2.1.2, (step_invariant r2 i2 Op.process_command_queue _ h2).1.2⟩

/-- Witness of C10: two `schedule_release` calls in succession on an instance in state
NOT_ALIVE_NO_WRITERS leave exactly one pending timer, the second one. -/
theorem at_most_one_timer_witness :
    (example_no_writers_world.inst.release_timer_id_ = -1 ∧
      example_no_writers_world.reactor.timers = [] ∧
      example_no_writers_world.command_queue_ = []) ∧
    (run [(example_reader, true, Op.schedule_release), (example_reader, true, Op.schedule_release)]
      example_no_writers_world).reactor.timers = [(43, ⟨⟨5, 0⟩⟩)] ∧
    (run [(example_reader, true, Op.schedule_release), (example_reader, true, Op.schedule_release)]
      example_no_writers_world).reactor.timers.length ≤ 1 :=
  ⟨⟨rfl, rfl, rfl⟩, by decide,
    (at_most_one_timer
      [(example_reader, true, Op.schedule_release), (example_reader, true, Op.schedule_release)]
      example_no_writers_world rfl rfl).1⟩


/-! ## Failure to obtain a timer -/

/-- C11: when `schedule_release` takes the timer branch (the delay configured for the
stored NOT_ALIVE state has both fields different from the infinite constants)
and the facility fails to hand out a timer, the stored timer id is `-1` and
`release_pending_` is false afterwards, whatever they were before; the same holds
when the two commands are queued and executed later by the reactor. -/
theorem schedule_release_timer_failure (reader : DataReaderImpl) (w : World) (delay : Duration_t)
    (hd : release_delay reader w.inst.instance_state_ = some delay)
    (hsec : delay.sec ≠ DURATION_INFINITE_SEC) (hnsec : delay.nanosec ≠ DURATION_INFINITE_NSEC)
    (hfail : w.reactor.answers.headD (-1) = -1) :
    ((schedule_release reader true w).inst.release_timer_id_ = -1 ∧
      (schedule_release reader true w).inst.release_pending_ = false) ∧
    (w.command_queue_ = [] →
      (process_command_queue (schedule_release reader false w)).inst.release_timer_id_ = -1 ∧
      (process_command_queue (schedule_release reader false w)).inst.release_pending_ = false) := by
  rw [schedule_release_timer_branch reader true w delay hd hsec hnsec,
    schedule_release_timer_branch reader false w delay hd hsec hnsec]
  constructor
  · simp only [execute_or_enqueue, Command.execute, CancelCommand.execute,
      ScheduleCommand.execute, Reactor.schedule_timer, Reactor.cancel_timer, if_true]
    cases ha : w.reactor.answers with
    | nil => split_ifs <;> simp [ha]
    | cons a rest =>
      have : a = -1 := by simpa [ha] using hfail
      subst this
      split_ifs <;> simp [ha]
  · intro hq
    simp only [execute_or_enqueue, process_command_queue, hq, Command.execute,
      CancelCommand.execute, ScheduleCommand.execute, Reactor.schedule_timer,
      Reactor.cancel_timer, List.nil_append, List.cons_append, List.foldl_cons, List.foldl_nil]
    cases ha : w.reactor.answers with
    | nil =>
      simp [ha]
      split_ifs <;> simp [ha]
    | cons a rest =>
      have : a = -1 := by simpa [ha] using hfail
      subst this
      simp [ha]
      split_ifs <;> simp [ha]

/-- Witness of C11: a pending instance with a stored timer `7` asks for a timer of
five seconds and the facility fails. -/
theorem schedule_release_timer_failure_witness :
    (release_delay example_reader example_failing_world.inst.instance_state_ = some ⟨5, 0⟩ ∧
      example_failing_world.reactor.answers.headD (-1) = -1 ∧
      example_failing_world.inst.release_pending_ = true ∧
      example_failing_world.inst.release_timer_id_ = 7) ∧
    ((schedule_release example_reader true example_failing_world).inst.release_timer_id_ = -1 ∧
      (schedule_release example_reader true example_failing_world).inst.release_pending_ = false) :=
  ⟨by decide,
    (schedule_release_timer_failure example_reader example_failing_world ⟨5, 0⟩ (by decide)
      (by decide) (by decide) (by decide)).1⟩

/-! ## Generations and registration -/

/-- C12: `most_recent_generation` is true exactly when the saved
`disposed_generation_count_` of the sample equals the current one of the instance and
the saved `no_writers_generation_count_` equals the current one; a sample with saved
counters `2` and `1` against an instance with counters `1` and `2` (same sum)
yields false. -/
theorem most_recent_generation_iff (item : ReceivedDataElement) (w : World) :
    (most_recent_generation item w = true ↔
      (item.disposed_generation_count_ = w.inst.disposed_generation_count_ ∧
        item.no_writers_generation_count_ = w.inst.no_writers_generation_count_)) ∧
    (example_sample.disposed_generation_count_ + example_sample.no_writers_generation_count_ =
        example_counted_world.inst.disposed_generation_count_ +
          example_counted_world.inst.no_writers_generation_count_ ∧
      most_recent_generation example_sample example_counted_world = false) := by
  refine ⟨?_, by decide⟩
  simp [most_recent_generation]

/-- Executing queued commands changes no field of the object but the stored timer id. -/
theorem foldl_execute_frame (q : List Command) (v : World) :
    (q.foldl (fun v cmd => cmd.execute v) v).inst =
      { v.inst with
        release_timer_id_ := (q.foldl (fun v cmd => cmd.execute v) v).inst.release_timer_id_ } := by
  induction q generalizing v with
  | nil => rfl
  | cons cmd q ih =>
    rw [List.foldl_cons]
    have h1 := ih (cmd.execute v)
    have h2 := (command_execute_frame cmd v).1
    rw [h1, h2]

/-- An operation other than `reset_ownership` and `registered(false)` leaves a true
`registered_` flag true. -/
theorem step_keeps_registered (reader : DataReaderImpl) (immediate : Bool) (op : Op) (w : World)
    (hop : clears_registered op = false) (h : w.inst.registered_ = true) :
    (step reader immediate op w).inst.registered_ = true := by
  cases op with
  | dispose_was_received writer_id =>
    simp only [step]
    rw [dispose_was_received_eq]
    split_ifs
    · rw [(schedule_release_frame reader immediate _).1]; exact h
    · exact h
  | unregister_was_received writer_id =>
    simp only [step]
    rw [unregister_was_received_eq]
    split_ifs
    · rw [(schedule_release_frame reader immediate _).1]; exact h
    · exact h
  | writer_became_dead writer_id =>
    simp only [step]
    rw [writer_became_dead_eq]
    split_ifs
    · rw [(schedule_release_frame reader immediate _).1]; exact h
    · exact h
  | schedule_pending => exact h
  | schedule_release =>
    simp only [step]
    rw [(schedule_release_frame reader immediate _).1]; exact h
  | cancel_release =>
    simp only [step, cancel_release]
    rw [(execute_or_enqueue_frame immediate Command.CancelCommand _).1]; exact h
  | release_if_empty =>
    simp only [step, release_if_empty]
    split_ifs
    · exact h
    · exact h
  | release => exact h
  | handle_timeout => exact h
  | set_owner owner => exact h
  | registered => rfl
  | registered_flag flag =>
    cases flag with
    | false => simp [clears_registered] at hop
    | true => rfl
  | reset_ownership hdl => simp [clears_registered] at hop
  | process_command_queue =>
    simp only [step, process_command_queue]
    rw [foldl_execute_frame]; exact h
  | timer_expires =>
    simp only [step, timer_expires]
    split
    · exact h
    · exact h

/-- Counterexample to C13: `registered()`, then the setter `registered(false)`, then
`registered()` again: both calls return false although no `reset_ownership` happens in
between. -/
theorem registered_once_counterexample :
    (∀ o ∈ [(example_reader, true, Op.registered), (example_reader, true, Op.registered_flag false)],
      ∀ h : InstanceHandle_t, o.2.2 ≠ Op.reset_ownership h) ∧
    (registered (example_world false)).1 = false ∧
    (registered (registered_flag false (registered (example_world false)).2)).1 = false ∧
    (registered (run
      [(example_reader, true, Op.registered), (example_reader, true, Op.registered_flag false)]
      (example_world false))).1 = false := by
  refine ⟨?_, by decide, by decide, by decide⟩
  intro o ho h
  simp only [List.mem_cons, List.mem_singleton, List.mem_nil_iff, or_false] at ho
  rcases ho with rfl | rfl
  · exact fun hc => Op.noConfusion hc
  · exact fun hc => Op.noConfusion hc

/-- C13 (amended): `registered()` returns the value `registered_` had before the call and
leaves it true, changing no other field; so the second of two consecutive calls
returns true, and so does every later call as long as no operation in between
stores false in the flag, which `reset_ownership` and the setter `registered(false)` do:
between two such operations at most one call returns false. -/
theorem registered_once (ops : List (DataReaderImpl × Bool × Op)) (w : World)
    (hops : ∀ o ∈ ops, clears_registered o.2.2 = false) :
    (registered w).1 = w.inst.registered_ ∧
    (registered w).2 = { w with inst := { w.inst with registered_ := true } } ∧
    (registered (registered w).2).1 = true ∧
    (registered (run ops (registered w).2)).1 = true := by
  refine ⟨rfl, rfl, rfl, ?_⟩
  have hrun : ∀ (ops : List (DataReaderImpl × Bool × Op)) (v : World),
      (∀ o ∈ ops, clears_registered o.2.2 = false) → v.inst.registered_ = true →
        (run ops v).inst.registered_ = true := by
    intro ops
    induction ops with
    | nil => intro v _ hv; exact hv
    | cons o ops ih =>
      intro v ho hv
      exact ih _ (fun o' ho' => ho o' (List.mem_cons_of_mem _ ho'))
        (step_keeps_registered o.1 o.2.1 o.2.2 v (ho o (List.mem_cons_self _ _)) hv)
  exact hrun ops _ hops rfl

/-- Witness of C13: a fresh instance registers (the call returns false), a writer
unregisters and the instance is polled; the next call returns true. -/
theorem registered_once_witness :
    (∀ o ∈ [(example_reader, true, Op.unregister_was_received 1),
        (example_reader, true, Op.release_if_empty)], clears_registered o.2.2 = false) ∧
    (registered (example_world false)).1 = false ∧
    (registered (run
      [(example_reader, true, Op.unregister_was_received 1),
        (example_reader, true, Op.release_if_empty)]
      (registered (example_world false)).2)).1 = true :=
  ⟨by decide, by decide,
    (registered_once
      [(example_reader, true, Op.unregister_was_received 1),
        (example_reader, true, Op.release_if_empty)]
      (example_world false) (by decide)).2.2.2⟩

/-- C14: `reset_ownership` stores `GUID_UNKNOWN` in `owner_` and false in `registered_`, sends one
`reset_ownership` request with the given handle to the reader and changes nothing
else: the stored state, the view state, both generation counters, the writer
set, `release_pending_`, the timer id, the reactor, the command queue and the calls
on the ownership manager are as before; `registered()` right after it returns
false. -/
theorem reset_ownership_effect (h : InstanceHandle_t) (w : World) :
    (reset_ownership h w).inst.owner_ = GUID_UNKNOWN ∧
    (reset_ownership h w).inst.registered_ = false ∧
    (reset_ownership h w).reader_calls = w.reader_calls ++ [ReaderCall.reset_ownership h] ∧
    (reset_ownership h w).inst =
      { w.inst with owner_ := GUID_UNKNOWN, registered_ := false } ∧
    ((reset_ownership h w).inst.instance_state_ = w.inst.instance_state_ ∧
      (reset_ownership h w).inst.view_state_ = w.inst.view_state_ ∧
      (reset_ownership h w).inst.disposed_generation_count_ = w.inst.disposed_generation_count_ ∧
      (reset_ownership h w).inst.no_writers_generation_count_ =
        w.inst.no_writers_generation_count_ ∧
      (reset_ownership h w).inst.writers_ = w.inst.writers_ ∧
      (reset_ownership h w).inst.release_pending_ = w.inst.release_pending_ ∧
      (reset_ownership h w).inst.release_timer_id_ = w.inst.release_timer_id_) ∧
    ((reset_ownership h w).reactor = w.reactor ∧
      (reset_ownership h w).command_queue_ = w.command_queue_ ∧
      (reset_ownership h w).ownership_calls = w.ownership_calls) ∧
    (registered (reset_ownership h w)).1 = false :=
  ⟨rfl, rfl, rfl, rfl, ⟨rfl, rfl, rfl, rfl, rfl, rfl, rfl⟩, ⟨rfl, rfl, rfl⟩, rfl⟩


/-! ## The sample-info record -/

/-- The conversion `to_Long` keeps a value that fits the field. -/
theorem to_Long_of_lt (n : Nat) (h : n < 2 ^ 31) : to_Long n = (n : Int) := by
  unfold to_Long
  have h1 : n % 2 ^ 32 = n := Nat.mod_eq_of_lt (by omega)
  rw [h1, if_pos h]

/-- The 64-bit wrap of the sum is invisible after narrowing to 32 bits. -/
theorem to_Long_size_t_add (a b : Nat) : to_Long (size_t_add a b) = to_Long (a + b) := by
  unfold to_Long size_t_add
  have h : (a + b) % 2 ^ 64 % 2 ^ 32 = (a + b) % 2 ^ 32 :=
    Nat.mod_mod_of_dvd _ (by norm_num)
  rw [h]

/-- C15: the record filled by `sample_info` carries the read state, timestamp and
validity flag of the sample, the current view state, instance state and handle
of the instance, both current generation counters (converted to the 32-bit
signed field, hence the counter itself whenever it is below `2 ^ 31`), and as
publication handle the participant's translation of the publisher identity when
the participant can be resolved and `0` when it cannot; the instance and its
collaborators are not modified. -/
theorem sample_info_record (reader : DataReaderImpl) (si : SampleInfo)
    (de : ReceivedDataElement) (w : World) :
    ((sample_info reader si de w).1.sample_state = de.sample_state_ ∧
      (sample_info reader si de w).1.source_timestamp = de.source_timestamp_ ∧
      (sample_info reader si de w).1.valid_data = de.valid_data_) ∧
    ((sample_info reader si de w).1.view_state = w.inst.view_state_ ∧
      (sample_info reader si de w).1.instance_state = w.inst.instance_state_ ∧
      (sample_info reader si de w).1.instance_handle = w.inst.handle_) ∧
    ((sample_info reader si de w).1.disposed_generation_count =
        to_Long w.inst.disposed_generation_count_ ∧
      (sample_info reader si de w).1.no_writers_generation_count =
        to_Long w.inst.no_writers_generation_count_) ∧
    (w.inst.disposed_generation_count_ < 2 ^ 31 →
      (sample_info reader si de w).1.disposed_generation_count =
        (w.inst.disposed_generation_count_ : Int)) ∧
    (w.inst.no_writers_generation_count_ < 2 ^ 31 →
      (sample_info reader si de w).1.no_writers_generation_count =
        (w.inst.no_writers_generation_count_ : Int)) ∧
    (∀ id_to_handle, reader.participant_servant_ = some id_to_handle →
      (sample_info reader si de w).1.publication_handle = id_to_handle de.pub_) ∧
    (reader.participant_servant_ = none →
      (sample_info reader si de w).1.publication_handle = 0) ∧
    (sample_info reader si de w).2 = w := by
  refine ⟨⟨rfl, rfl, rfl⟩, ⟨rfl, rfl, rfl⟩, ⟨rfl, rfl⟩, ?_, ?_, ?_, ?_, rfl⟩
  · intro h
    exact to_Long_of_lt _ h
  · intro h
    exact to_Long_of_lt _ h
  · intro f hf
    simp [sample_info, hf]
  · intro hf
    simp [sample_info, hf]

/-- Witness of C15: a sample of writer `1` read from an instance with counters `1`
and `2`, once with a participant that maps writer `1` to handle `101`, once with
no participant. -/
theorem sample_info_record_witness :
    (example_counted_world.inst.disposed_generation_count_ < 2 ^ 31 ∧
      (sample_info example_participant_reader example_sample_info example_sample
        example_counted_world).1.disposed_generation_count = 1) ∧
    (example_counted_world.inst.no_writers_generation_count_ < 2 ^ 31 ∧
      (sample_info example_participant_reader example_sample_info example_sample
        example_counted_world).1.no_writers_generation_count = 2) ∧
    (sample_info example_participant_reader example_sample_info example_sample
      example_counted_world).1.publication_handle = 101 ∧
    (sample_info example_reader example_sample_info example_sample
      example_counted_world).1.publication_handle = 0 :=
  have h := sample_info_record example_participant_reader example_sample_info example_sample
    example_counted_world
  have h' := sample_info_record example_reader example_sample_info example_sample
    example_counted_world
  ⟨⟨by decide, h.2.2.2.1 (by decide)⟩, ⟨by decide, h.2.2.2.2.1 (by decide)⟩,
    h.2.2.2.2.2.1 _ rfl, h'.2.2.2.2.2.2.1 rfl⟩

/-- C16: `sample_info` sets `sample_rank` to `0` and sets `generation_rank` and
`absolute_generation_rank` both to the sum of the saved `disposed_generation_count_` and
`no_writers_generation_count_` of the sample, converted to the 32-bit signed field
(hence the sum itself whenever it is below `2 ^ 31`); the three values do not
depend on the instance, the reader or the record passed in. -/
theorem sample_info_ranks (reader : DataReaderImpl) (si : SampleInfo)
    (de : ReceivedDataElement) (w : World) :
    (sample_info reader si de w).1.sample_rank = 0 ∧
    (sample_info reader si de w).1.generation_rank =
      to_Long (de.disposed_generation_count_ + de.no_writers_generation_count_) ∧
    (sample_info reader si de w).1.absolute_generation_rank =
      to_Long (de.disposed_generation_count_ + de.no_writers_generation_count_) ∧
    (de.disposed_generation_count_ + de.no_writers_generation_count_ < 2 ^ 31 →
      (sample_info reader si de w).1.generation_rank =
          ((de.disposed_generation_count_ + de.no_writers_generation_count_ : Nat) : Int) ∧
        (sample_info reader si de w).1.absolute_generation_rank =
          ((de.disposed_generation_count_ + de.no_writers_generation_count_ : Nat) : Int)) ∧
    (∀ (reader' : DataReaderImpl) (si' : SampleInfo) (w' : World),
      (sample_info reader' si' de w').1.sample_rank =
          (sample_info reader si de w).1.sample_rank ∧
        (sample_info reader' si' de w').1.generation_rank =
          (sample_info reader si de w).1.generation_rank ∧
        (sample_info reader' si' de w').1.absolute_generation_rank =
          (sample_info reader si de w).1.absolute_generation_rank) := by
  have hg : (sample_info reader si de w).1.generation_rank =
      to_Long (de.disposed_generation_count_ + de.no_writers_generation_count_) :=
    to_Long_size_t_add _ _
  have ha : (sample_info reader si de w).1.absolute_generation_rank =
      to_Long (de.disposed_generation_count_ + de.no_writers_generation_count_) :=
    to_Long_size_t_add _ _
  refine ⟨rfl, hg, ha, ?_, ?_⟩
  · intro h
    rw [hg, ha]
    exact ⟨to_Long_of_lt _ h, to_Long_of_lt _ h⟩
  · intro reader' si' w'
    exact ⟨rfl, rfl, rfl⟩

/-- Witness of C16: the saved counters `2` and `1` give rank `3` although the
instance has counters `1` and `2` and the record came in with ranks `7`. -/
theorem sample_info_ranks_witness :
    example_sample.disposed_generation_count_ + example_sample.no_writers_generation_count_ <
      2 ^ 31 ∧
    (sample_info example_reader example_sample_info example_sample
      example_counted_world).1.generation_rank = 3 ∧
    (sample_info example_reader example_sample_info example_sample
      example_counted_world).1.absolute_generation_rank = 3 :=
  ⟨by decide,
    (sample_info_ranks example_reader example_sample_info example_sample
      example_counted_world).2.2.2.1 (by decide)⟩


/-! ## Repeated disposal -/

/-- No sequence of operations sets the ALIVE bit again. -/
theorem run_keeps_not_alive (ops : List (DataReaderImpl × Bool × Op)) :
    ∀ w : World, ¬ is_alive w.inst.instance_state_ →
      ¬ is_alive (run ops w).inst.instance_state_ := by
  induction ops with
  | nil => intro w h; exact h
  | cons o ops ih =>
    intro w h
    apply ih
    rcases step_instance_state o.1 o.2.1 o.2.2 w with hs | ⟨ha, _⟩
    · rw [hs]; exact h
    · exact absurd ha h

/-- A disposal received while the ALIVE bit is clear only removes the writer. -/
theorem dispose_was_received_not_alive (reader : DataReaderImpl) (immediate : Bool)
    (writer_id : PublicationId) (w : World) (h : ¬ is_alive w.inst.instance_state_) :
    dispose_was_received reader immediate writer_id w =
      (false, { w with inst := { w.inst with writers_ := w.inst.writers_.erase writer_id } }) := by
  rw [dispose_was_received_eq]
  simp [h, is_owner_calls]

/-- C17: under non-exclusive ownership, from a state with the ALIVE bit, the first
`dispose_was_received` returns true and stores NOT_ALIVE_DISPOSED; every later
`dispose_was_received`, after any operations in between, returns false and changes
nothing but the writer set, from which it removes its writer (state, generation
counters, `release_pending_`, timer id, reactor and command queue are untouched); a
second call for the same writer leaves the instance exactly as the first did. -/
theorem dispose_twice (reader : DataReaderImpl) (immediate : Bool) (writer_id : PublicationId)
    (w : World) (hx : w.inst.exclusive_ = false) (ha : is_alive w.inst.instance_state_) :
    (dispose_was_received reader immediate writer_id w).1 = true ∧
    (dispose_was_received reader immediate writer_id w).2.inst.instance_state_ =
      NOT_ALIVE_DISPOSED_INSTANCE_STATE ∧
    (∀ (ops : List (DataReaderImpl × Bool × Op)) (reader' : DataReaderImpl) (immediate' : Bool)
        (writer_id' : PublicationId),
      dispose_was_received reader' immediate' writer_id'
          (run ops (dispose_was_received reader immediate writer_id w).2) =
        (false,
          { run ops (dispose_was_received reader immediate writer_id w).2 with
            inst :=
              { (run ops (dispose_was_received reader immediate writer_id w).2).inst with
                writers_ :=
                  (run ops (dispose_was_received reader immediate writer_id w).2).inst.writers_.erase
                    writer_id' } })) ∧
    (∀ (reader' : DataReaderImpl) (immediate' : Bool),
      (dispose_was_received reader' immediate' writer_id
          (dispose_was_received reader immediate writer_id w).2).2 =
        (dispose_was_received reader immediate writer_id w).2) := by
  have hauth : dispose_authorized reader writer_id w = true := by
    simp [dispose_authorized, hx]
  have hfirst : dispose_was_received reader immediate writer_id w =
      (true, schedule_release reader immediate
        { w with
          inst := { w.inst with
            writers_ := w.inst.writers_.erase writer_id
            instance_state_ := NOT_ALIVE_DISPOSED_INSTANCE_STATE }
          ownership_calls := w.ownership_calls ++ is_owner_calls reader writer_id w }) := by
    rw [dispose_was_received_eq]
    simp [ha, hauth]
  have hstate : (dispose_was_received reader immediate writer_id w).2.inst.instance_state_ =
      NOT_ALIVE_DISPOSED_INSTANCE_STATE := by
    rw [hfirst]; simp
  have hna : ¬ is_alive (dispose_was_received reader immediate writer_id w).2.inst.instance_state_ := by
    rw [hstate]; exact not_alive_disposed_not_alive
  refine ⟨by rw [hfirst], hstate, ?_, ?_⟩
  · intro ops reader' immediate' writer_id'
    exact dispose_was_received_not_alive reader' immediate' writer_id' _
      (run_keeps_not_alive ops _ hna)
  · intro reader' immediate'
    rw [dispose_was_received_not_alive reader' immediate' writer_id _ hna]
    have hw : (dispose_was_received reader immediate writer_id w).2.inst.writers_.erase writer_id =
        (dispose_was_received reader immediate writer_id w).2.inst.writers_ := by
      rw [hfirst]
      simp
    simp only [hw]

/-- Witness of C17: writer `1` disposes an ALIVE instance twice; the second call
returns false and leaves the instance as the first call left it. -/
theorem dispose_twice_witness :
    ((example_world false).inst.exclusive_ = false ∧
      is_alive (example_world false).inst.instance_state_) ∧
    (dispose_was_received example_reader true 1 (example_world false)).1 = true ∧
    (dispose_was_received example_reader true 1
      (dispose_was_received example_reader true 1 (example_world false)).2).1 = false ∧
    (dispose_was_received example_reader true 1
        (dispose_was_received example_reader true 1 (example_world false)).2).2 =
      (dispose_was_received example_reader true 1 (example_world false)).2 :=
  have h := dispose_twice example_reader true 1 (example_world false) rfl (by decide)
  ⟨⟨rfl, by decide⟩, h.1, by decide, h.2.2.2 example_reader true⟩

/-! ## The delay of the schedule-release step -/

/-- The reactor records every `schedule_timer` call with the delay it was given. -/
theorem schedule_timer_calls (r : Reactor) (delay : ACE_Time_Value) :
    (r.schedule_timer delay).2.calls = r.calls ++ [ReactorCall.schedule_timer delay] := by
  unfold Reactor.schedule_timer
  split
  · rfl
  · split_ifs <;> rfl

/-- C18: `schedule_release` uses the delay configured for the stored state. In state
NOT_ALIVE_NO_WRITERS it is decided by `autopurge_nowriter_samples_delay` alone: when both
of its fields differ from the infinite constants a `CancelCommand` and a
`ScheduleCommand` carrying that very delay are handed over (executed at once, the
last call on the reactor is `schedule_timer` with that delay; queued, the queue
grows by exactly these two commands), otherwise only `release_pending_` is set. In
state NOT_ALIVE_DISPOSED the same holds with `autopurge_disposed_samples_delay`. Hence two
readers that agree on the delay of the stored state give the same result,
whatever their other delay. -/
theorem schedule_release_delay_of_state (r1 r2 : DataReaderImpl) (immediate : Bool) (w : World) :
    (w.inst.instance_state_ = NOT_ALIVE_NO_WRITERS_INSTANCE_STATE →
      schedule_release r1 immediate w =
        (if r1.autopurge_nowriter_samples_delay.sec ≠ DURATION_INFINITE_SEC ∧
            r1.autopurge_nowriter_samples_delay.nanosec ≠ DURATION_INFINITE_NSEC then
          execute_or_enqueue immediate
            (Command.ScheduleCommand (duration_to_time_value r1.autopurge_nowriter_samples_delay))
            (cancel_release immediate w)
        else schedule_pending w)) ∧
    (w.inst.instance_state_ = NOT_ALIVE_DISPOSED_INSTANCE_STATE →
      schedule_release r1 immediate w =
        (if r1.autopurge_disposed_samples_delay.sec ≠ DURATION_INFINITE_SEC ∧
            r1.autopurge_disposed_samples_delay.nanosec ≠ DURATION_INFINITE_NSEC then
          execute_or_enqueue immediate
            (Command.ScheduleCommand (duration_to_time_value r1.autopurge_disposed_samples_delay))
            (cancel_release immediate w)
        else schedule_pending w)) ∧
    (w.inst.instance_state_ = NOT_ALIVE_NO_WRITERS_INSTANCE_STATE →
      r1.autopurge_nowriter_samples_delay.sec ≠ DURATION_INFINITE_SEC →
      r1.autopurge_nowriter_samples_delay.nanosec ≠ DURATION_INFINITE_NSEC →
        (schedule_release r1 true w).reactor.calls.getLast? =
            some (ReactorCall.schedule_timer
              (duration_to_time_value r1.autopurge_nowriter_samples_delay)) ∧
          (schedule_release r1 false w).command_queue_ =
            w.command_queue_ ++ [Command.CancelCommand,
              Command.ScheduleCommand
                (duration_to_time_value r1.autopurge_nowriter_samples_delay)]) ∧
    (w.inst.instance_state_ = NOT_ALIVE_DISPOSED_INSTANCE_STATE →
      r1.autopurge_disposed_samples_delay.sec ≠ DURATION_INFINITE_SEC →
      r1.autopurge_disposed_samples_delay.nanosec ≠ DURATION_INFINITE_NSEC →
        (schedule_release r1 true w).reactor.calls.getLast? =
            some (ReactorCall.schedule_timer
              (duration_to_time_value r1.autopurge_disposed_samples_delay)) ∧
          (schedule_release r1 false w).command_queue_ =
            w.command_queue_ ++ [Command.CancelCommand,
              Command.ScheduleCommand
                (duration_to_time_value r1.autopurge_disposed_samples_delay)]) ∧
    (w.inst.instance_state_ = NOT_ALIVE_NO_WRITERS_INSTANCE_STATE →
      r1.autopurge_nowriter_samples_delay = r2.autopurge_nowriter_samples_delay →
        schedule_release r1 immediate w = schedule_release r2 immediate w) ∧
    (w.inst.instance_state_ = NOT_ALIVE_DISPOSED_INSTANCE_STATE →
      r1.autopurge_disposed_samples_delay = r2.autopurge_disposed_samples_delay →
        schedule_release r1 immediate w = schedule_release r2 immediate w) := by
  have hnw : ∀ r : DataReaderImpl,
      w.inst.instance_state_ = NOT_ALIVE_NO_WRITERS_INSTANCE_STATE →
      release_delay r w.inst.instance_state_ = some r.autopurge_nowriter_samples_delay := by
    intro r hs
    simp [release_delay, hs]
  have hdi : ∀ r : DataReaderImpl,
      w.inst.instance_state_ = NOT_ALIVE_DISPOSED_INSTANCE_STATE →
      release_delay r w.inst.instance_state_ = some r.autopurge_disposed_samples_delay := by
    intro r hs
    simp [release_delay, hs, NOT_ALIVE_DISPOSED_INSTANCE_STATE,
      NOT_ALIVE_NO_WRITERS_INSTANCE_STATE]
  have hform : ∀ (i : Bool) (delay : Duration_t),
      release_delay r1 w.inst.instance_state_ = some delay →
      schedule_release r1 i w =
        (if delay.sec ≠ DURATION_INFINITE_SEC ∧ delay.nanosec ≠ DURATION_INFINITE_NSEC then
          execute_or_enqueue i (Command.ScheduleCommand (duration_to_time_value delay))
            (cancel_release i w)
        else schedule_pending w) := by
    intro i delay hd
    unfold schedule_release
    rw [hd]
  have hobs : ∀ delay : Duration_t,
      release_delay r1 w.inst.instance_state_ = some delay →
      delay.sec ≠ DURATION_INFINITE_SEC → delay.nanosec ≠ DURATION_INFINITE_NSEC →
      (schedule_release r1 true w).reactor.calls.getLast? =
          some (ReactorCall.schedule_timer (duration_to_time_value delay)) ∧
        (schedule_release r1 false w).command_queue_ =
          w.command_queue_ ++ [Command.CancelCommand,
            Command.ScheduleCommand (duration_to_time_value delay)] := by
    intro delay hd hsec hnsec
    rw [schedule_release_timer_branch r1 true w delay hd hsec hnsec,
      schedule_release_timer_branch r1 false w delay hd hsec hnsec]
    constructor
    · simp only [execute_or_enqueue, Command.execute, ScheduleCommand.execute, if_true]
      rw [schedule_timer_calls]
      simp
    · simp [execute_or_enqueue]
  refine ⟨fun hs => hform immediate _ (hnw r1 hs), fun hs => hform immediate _ (hdi r1 hs),
    fun hs => hobs _ (hnw r1 hs), fun hs => hobs _ (hdi r1 hs), ?_, ?_⟩
  · intro hs hd
    have : release_delay r1 w.inst.instance_state_ = release_delay r2 w.inst.instance_state_ := by
      rw [hnw r1 hs, hnw r2 hs, hd]
    unfold schedule_release
    rw [this]
  · intro hs hd
    have : release_delay r1 w.inst.instance_state_ = release_delay r2 w.inst.instance_state_ := by
      rw [hdi r1 hs, hdi r2 hs, hd]
    unfold schedule_release
    rw [this]

/-- Witness of C18: with a no-writers delay of five seconds and a disposed delay of
seven seconds, the timer requested in state NOT_ALIVE_NO_WRITERS has five seconds
and the one requested in state NOT_ALIVE_DISPOSED has seven; in state
NOT_ALIVE_NO_WRITERS a reader with an infinite disposed delay schedules the same
timer. -/
theorem schedule_release_delay_of_state_witness :
    ((example_no_writers_world.inst.instance_state_ = NOT_ALIVE_NO_WRITERS_INSTANCE_STATE ∧
        example_reader.autopurge_nowriter_samples_delay.sec ≠ DURATION_INFINITE_SEC ∧
        example_reader.autopurge_nowriter_samples_delay.nanosec ≠ DURATION_INFINITE_NSEC) ∧
      (schedule_release example_reader true example_no_writers_world).reactor.calls.getLast? =
        some (ReactorCall.schedule_timer ⟨⟨5, 0⟩⟩) ∧
      (schedule_release example_reader true example_no_writers_world).reactor.timers =
        [(42, ⟨⟨5, 0⟩⟩)]) ∧
    ((example_disposed_world.inst.instance_state_ = NOT_ALIVE_DISPOSED_INSTANCE_STATE ∧
        example_reader.autopurge_disposed_samples_delay.sec ≠ DURATION_INFINITE_SEC ∧
        example_reader.autopurge_disposed_samples_delay.nanosec ≠ DURATION_INFINITE_NSEC) ∧
      (schedule_release example_reader true example_disposed_world).reactor.calls.getLast? =
        some (ReactorCall.schedule_timer ⟨⟨7, 0⟩⟩) ∧
      (schedule_release example_reader true example_disposed_world).reactor.timers =
        [(42, ⟨⟨7, 0⟩⟩)]) ∧
    (example_reader.autopurge_nowriter_samples_delay =
        ({ example_reader with
            autopurge_disposed_samples_delay := DURATION_INFINITE } :
          DataReaderImpl).autopurge_nowriter_samples_delay ∧
      schedule_release example_reader true example_no_writers_world =
        schedule_release
          { example_reader with autopurge_disposed_samples_delay := DURATION_INFINITE } true
          example_no_writers_world) :=
  ⟨⟨⟨rfl, by decide, by decide⟩,
      ((schedule_release_delay_of_state example_reader example_reader true
        example_no_writers_world).2.2.1 rfl (by decide) (by decide)).1,
      by decide⟩,
    ⟨⟨rfl, by decide, by decide⟩,
      ((schedule_release_delay_of_state example_reader example_reader true
        example_disposed_world).2.2.2.1 rfl (by decide) (by decide)).1,
      by decide⟩,
    ⟨rfl,
      (schedule_release_delay_of_state example_reader
        { example_reader with autopurge_disposed_samples_delay := DURATION_INFINITE } true
        example_no_writers_world).2.2.2.2.1 rfl rfl⟩⟩

/-- C19: when the stored state is neither NOT_ALIVE_NO_WRITERS nor NOT_ALIVE_DISPOSED,
`schedule_release` changes nothing: the object, the reactor (no `cancel_timer`, no
`schedule_timer`), the command queue and the other collaborators are as before. This
covers the state `0` of a freshly constructed instance and the state ALIVE. -/
theorem schedule_release_unsupported_state (reader : DataReaderImpl) (immediate : Bool)
    (w : World)
    (h1 : w.inst.instance_state_ ≠ NOT_ALIVE_NO_WRITERS_INSTANCE_STATE)
    (h2 : w.inst.instance_state_ ≠ NOT_ALIVE_DISPOSED_INSTANCE_STATE) :
    schedule_release reader immediate w = w ∧
    (∀ (exclusive : Bool) (handle : InstanceHandle_t),
      (InstanceState.new exclusive handle).instance_state_ = 0 ∧
      schedule_release reader immediate
          { w with inst := InstanceState.new exclusive handle } =
        { w with inst := InstanceState.new exclusive handle }) := by
  have key : ∀ v : World, v.inst.instance_state_ ≠ NOT_ALIVE_NO_WRITERS_INSTANCE_STATE →
      v.inst.instance_state_ ≠ NOT_ALIVE_DISPOSED_INSTANCE_STATE →
      schedule_release reader immediate v = v := by
    intro v g1 g2
    have : release_delay reader v.inst.instance_state_ = none := by
      simp [release_delay, g1, g2]
    unfold schedule_release
    rw [this]
  refine ⟨key w h1 h2, ?_⟩
  intro exclusive handle
  refine ⟨rfl, key _ ?_ ?_⟩
  · show (0 : InstanceStateKind) ≠ NOT_ALIVE_NO_WRITERS_INSTANCE_STATE
    decide
  · show (0 : InstanceStateKind) ≠ NOT_ALIVE_DISPOSED_INSTANCE_STATE
    decide

/-- Witness of C19: a freshly constructed instance (state `0`) and an ALIVE one. -/
theorem schedule_release_unsupported_state_witness :
    (schedule_release example_reader true ⟨InstanceState.new false 9, ⟨[], [42], []⟩, [], [], []⟩ =
      ⟨InstanceState.new false 9, ⟨[], [42], []⟩, [], [], []⟩) ∧
    schedule_release example_reader true (example_world false) = example_world false :=
  ⟨(schedule_release_unsupported_state example_reader true
      ⟨InstanceState.new false 9, ⟨[], [42], []⟩, [], [], []⟩ (by decide) (by decide)).1,
    (schedule_release_unsupported_state example_reader true (example_world false)
      (by decide) (by decide)).1⟩


/-! ## The name of a mask -/

/-- C20: with `ANY_INSTANCE_STATE` different from the other four `case` labels,
`instance_state_mask_string` gives "ANY_INSTANCE_STATE" for the mask ANY and
"NOT_ALIVE_INSTANCE_STATE" for the mask NOT_ALIVE (not the joined names of its two
bits); for every other mask it gives the names of the bits set among ALIVE,
NOT_ALIVE_DISPOSED and NOT_ALIVE_NO_WRITERS, in that order, joined by " | ", which
is the empty string when none of the three bits is set. -/
theorem instance_state_mask_string_result (ANY_INSTANCE_STATE mask : InstanceStateKind)
    (h1 : ANY_INSTANCE_STATE ≠ ALIVE_INSTANCE_STATE)
    (h2 : ANY_INSTANCE_STATE ≠ NOT_ALIVE_INSTANCE_STATE)
    (h3 : ANY_INSTANCE_STATE ≠ NOT_ALIVE_DISPOSED_INSTANCE_STATE)
    (h4 : ANY_INSTANCE_STATE ≠ NOT_ALIVE_NO_WRITERS_INSTANCE_STATE) :
    instance_state_mask_string ANY_INSTANCE_STATE ANY_INSTANCE_STATE = "ANY_INSTANCE_STATE" ∧
    (instance_state_mask_string ANY_INSTANCE_STATE NOT_ALIVE_INSTANCE_STATE =
        "NOT_ALIVE_INSTANCE_STATE" ∧
      instance_state_mask_string ANY_INSTANCE_STATE NOT_ALIVE_INSTANCE_STATE ≠
        String.intercalate " | " (mask_bit_names NOT_ALIVE_INSTANCE_STATE)) ∧
    (mask ≠ ANY_INSTANCE_STATE → mask ≠ NOT_ALIVE_INSTANCE_STATE →
      instance_state_mask_string ANY_INSTANCE_STATE mask =
        String.intercalate " | " (mask_bit_names mask)) ∧
    (mask ≠ ANY_INSTANCE_STATE → mask ≠ NOT_ALIVE_INSTANCE_STATE →
      mask &&& ALIVE_INSTANCE_STATE = 0 →
      mask &&& NOT_ALIVE_DISPOSED_INSTANCE_STATE = 0 →
      mask &&& NOT_ALIVE_NO_WRITERS_INSTANCE_STATE = 0 →
      instance_state_mask_string ANY_INSTANCE_STATE mask = "") := by
  have hany : instance_state_mask_string ANY_INSTANCE_STATE ANY_INSTANCE_STATE =
      "ANY_INSTANCE_STATE" := by
    simp [instance_state_mask_string, instance_state_string, h1, h2, h3, h4]
  have hna : instance_state_mask_string ANY_INSTANCE_STATE NOT_ALIVE_INSTANCE_STATE =
      "NOT_ALIVE_INSTANCE_STATE" := by
    have e : NOT_ALIVE_INSTANCE_STATE ≠ ALIVE_INSTANCE_STATE := by decide
    simp [instance_state_mask_string, instance_state_string, Ne.symm h2, e]
  have hA : instance_state_string ANY_INSTANCE_STATE ALIVE_INSTANCE_STATE =
      "ALIVE_INSTANCE_STATE" := by
    simp [instance_state_string]
  have hD : instance_state_string ANY_INSTANCE_STATE NOT_ALIVE_DISPOSED_INSTANCE_STATE =
      "NOT_ALIVE_DISPOSED_INSTANCE_STATE" := by
    have e1 : NOT_ALIVE_DISPOSED_INSTANCE_STATE ≠ ALIVE_INSTANCE_STATE := by decide
    have e2 : NOT_ALIVE_DISPOSED_INSTANCE_STATE ≠ NOT_ALIVE_INSTANCE_STATE := by decide
    simp [instance_state_string, e1, e2]
  have hN : instance_state_string ANY_INSTANCE_STATE NOT_ALIVE_NO_WRITERS_INSTANCE_STATE =
      "NOT_ALIVE_NO_WRITERS_INSTANCE_STATE" := by
    have e1 : NOT_ALIVE_NO_WRITERS_INSTANCE_STATE ≠ ALIVE_INSTANCE_STATE := by decide
    have e2 : NOT_ALIVE_NO_WRITERS_INSTANCE_STATE ≠ NOT_ALIVE_INSTANCE_STATE := by decide
    have e3 : NOT_ALIVE_NO_WRITERS_INSTANCE_STATE ≠ NOT_ALIVE_DISPOSED_INSTANCE_STATE := by
      decide
    simp [instance_state_string, e1, e2, e3]
  have hother : mask ≠ ANY_INSTANCE_STATE → mask ≠ NOT_ALIVE_INSTANCE_STATE →
      instance_state_mask_string ANY_INSTANCE_STATE mask =
        String.intercalate " | " (mask_bit_names mask) := by
    intro g1 g2
    unfold instance_state_mask_string mask_bit_names
    rw [if_neg g1, if_neg g2, hA, hD, hN]
    by_cases b1 : mask &&& ALIVE_INSTANCE_STATE ≠ 0
    · simp only [if_pos b1]
      by_cases b2 : mask &&& NOT_ALIVE_DISPOSED_INSTANCE_STATE ≠ 0
      · simp only [if_pos b2]
        by_cases b3 : mask &&& NOT_ALIVE_NO_WRITERS_INSTANCE_STATE ≠ 0
        · simp only [if_pos b3]; decide
        · simp only [if_neg b3]; decide
      · simp only [if_neg b2]
        by_cases b3 : mask &&& NOT_ALIVE_NO_WRITERS_INSTANCE_STATE ≠ 0
        · simp only [if_pos b3]; decide
        · simp only [if_neg b3]; decide
    · simp only [if_neg b1]
      by_cases b2 : mask &&& NOT_ALIVE_DISPOSED_INSTANCE_STATE ≠ 0
      · simp only [if_pos b2]
        by_cases b3 : mask &&& NOT_ALIVE_NO_WRITERS_INSTANCE_STATE ≠ 0
        · simp only [if_pos b3]; decide
        · simp only [if_neg b3]; decide
      · simp only [if_neg b2]
        by_cases b3 : mask &&& NOT_ALIVE_NO_WRITERS_INSTANCE_STATE ≠ 0
        · simp only [if_pos b3]; decide
        · simp only [if_neg b3]; decide
  refine ⟨hany, ⟨hna, ?_⟩, hother, ?_⟩
  · rw [hna]
    decide
  · intro g1 g2 b1 b2 b3
    rw [hother g1 g2]
    simp [mask_bit_names, b1, b2, b3]
    rfl

/-- Witness of C20: with `ANY_INSTANCE_STATE = 0xffff`, the mask with the ALIVE and the
NOT_ALIVE_NO_WRITERS bits. -/
theorem instance_state_mask_string_result_witness :
    ((0xffff : InstanceStateKind) ≠ ALIVE_INSTANCE_STATE ∧
      (0xffff : InstanceStateKind) ≠ NOT_ALIVE_INSTANCE_STATE ∧
      (0xffff : InstanceStateKind) ≠ NOT_ALIVE_DISPOSED_INSTANCE_STATE ∧
      (0xffff : InstanceStateKind) ≠ NOT_ALIVE_NO_WRITERS_INSTANCE_STATE) ∧
    instance_state_mask_string 0xffff 0xffff = "ANY_INSTANCE_STATE" ∧
    instance_state_mask_string 0xffff 5 =
      String.intercalate " | " (mask_bit_names 5) ∧
    instance_state_mask_string 0xffff 5 =
      "ALIVE_INSTANCE_STATE | NOT_ALIVE_NO_WRITERS_INSTANCE_STATE" :=
  have h := instance_state_mask_string_result 0xffff 5 (by decide) (by decide) (by decide)
    (by decide)
  ⟨by decide, h.1, h.2.2.1 (by decide) (by decide), by decide⟩


end OpenDDS.DCPS
